import Mathlib

/-!
# Voyage screenshot scanner (`src/src/voyimage.cpp`)

A shallow embedding of `VoyImageScanner`: the star classifier `HasStar`, the
two scale searches `MatchTop` and `MatchBottom`, the derived crop layout and
the pipeline `AnalyzeVoyImage`.

Modelling conventions.

* A `cv::Mat` is represented by its geometry and element type only (row and
  column count, `type()`, and the offset of the view inside the decoded
  image).  The library calls that read pixel values (`cv::matchTemplate` and
  `cv::minMaxLoc`, `OCRNumber`, `cv::mean`) are fields of `Scanner`, functions
  of the view they are applied to.  The two `cv::threshold` calls of
  `AnalyzeVoyImage` only change pixel values and have no counterpart.
* C++ `int` is `Int`; `/` on `int` is `Int.tdiv` (truncation), and a zero
  divisor is the fault `divideByZero`.  Image sizes are small against `2^31`,
  so no wrap-around is modelled.
* A `double` is the rational it denotes; `roundDouble` is IEEE binary64
  rounding to nearest, ties to even, and `addDouble` is `double` addition.  A
  matching score is a `float` (`Float32`), widened exactly to `double`.  The
  three places where a `double` expression with inexact constants is cast back
  to `int` are fields of `Scanner` (`bottomRowStart`, `valueColEnd`,
  `valueColStart`); `(int)(scaledWidth * 6.75)` is exact and is written
  `(scaledWidth * 27) / 4`.
* A `cv::Exception` leaving a crop is `Except.error Fault.outOfRange`; one
  leaving `cv::resize`, the `Mat res(...)` constructor or `cv::matchTemplate`
  is `Except.error Fault.cvException`.  The two `for` loops take a fuel
  argument: it bounds the number of times `height += stepHeight` may run, and
  running out is `Except.error Fault.fuelExhausted`.
-/

namespace DataCore

/-! ## Data model -/

/-- The ways a call can fail to return: a crop outside its raster, another
failed assertion of the image library, an integer division by zero, or a scan
loop that is still running when its fuel is spent. -/
inductive Fault where
  | outOfRange
  | cvException
  | divideByZero
  | fuelExhausted
deriving DecidableEq, Repr

deriving instance DecidableEq for Except

/-- A `cv::Point`. -/
structure Point where
  x : Int := 0
  y : Int := 0
deriving DecidableEq, Repr

/-- A `cv::Mat` seen through its geometry: `rows`, `cols`, the element type
`type()` (16 is `CV_8UC3`), and where the view starts inside the decoded image
it shares its pixels with. -/
structure Mat where
  rows : Int
  cols : Int
  y0 : Int := 0
  x0 : Int := 0
  type : Int := 16
deriving DecidableEq, Repr

/-- The range test of `cv::Mat::operator()(Range, Range)`. -/
def inRange (m : Mat) (rowStart rowEnd colStart colEnd : Int) : Prop :=
  0 ≤ rowStart ∧ rowStart ≤ rowEnd ∧ rowEnd ≤ m.rows ∧
  0 ≤ colStart ∧ colStart ≤ colEnd ∧ colEnd ≤ m.cols

instance (m : Mat) (a b c d : Int) : Decidable (inRange m a b c d) :=
  inferInstanceAs (Decidable (_ ∧ _ ∧ _ ∧ _ ∧ _ ∧ _))

/-- Modelled from the spec: the crop helper `SubMat` of `utils.h` is not among
the sources.  It is the crop operation of the pipeline, a view of rows
`[rowStart, rowEnd)` and columns `[colStart, colEnd)` of `input`, with the
out-of-range branch of `cv::Mat::operator()(Range, Range)`. -/
def SubMat (input : Mat) (rowStart rowEnd colStart colEnd : Int) : Except Fault Mat :=
  if inRange input rowStart rowEnd colStart colEnd then
    .ok { rows := rowEnd - rowStart, cols := colEnd - colStart,
          y0 := input.y0 + rowStart, x0 := input.x0 + colStart, type := input.type }
  else
    .error .outOfRange

/-- Modelled from the spec: `ParsedSkill` is declared in `voyimage.h`, which is
not among the sources; the fields are those `ParsedSkill::toJson` writes and
the defaults are the zero defaults of a Skill Entry. -/
structure ParsedSkill where
  skillValue : Int := 0
  primary : Int := 0
deriving DecidableEq, Repr

/-- Modelled from the spec: `VoySearchResults` is declared in `voyimage.h`,
which is not among the sources; the fields are those
`VoySearchResults::toJson` writes, and a fresh result has `valid = false`, an
empty `error` and zero entries. -/
structure VoySearchResults where
  input_width : Int := 0
  input_height : Int := 0
  error : String := ""
  antimatter : Int := 0
  valid : Bool := false
  fileSize : Nat := 0
  cmd : ParsedSkill := {}
  dip : ParsedSkill := {}
  eng : ParsedSkill := {}
  med : ParsedSkill := {}
  sci : ParsedSkill := {}
  sec : ParsedSkill := {}
deriving DecidableEq, Repr

/-! ## Floating point -/

/-- IEEE binary64 rounding of a real value (of magnitude below `2^1024`) to
the nearest `double`, ties to the even mantissa: `e` is the exponent of the
binade of `x` (at least that of the subnormals), `ulp` the spacing of the
doubles there. -/
def roundDouble (x : ℚ) : ℚ :=
  if x = 0 then 0
  else
    let e : Int := max (Int.log 2 |x|) (-1022)
    let ulp : ℚ := 2 ^ (e - 52)
    let n : ℚ := x / ulp
    let f : Int := ⌊n⌋
    let r : ℚ := n - f
    let m : Int :=
      if r < 1 / 2 then f
      else if 1 / 2 < r then f + 1
      else if f % 2 = 0 then f
      else f + 1
    m * ulp

/-- The `+` of two `double` values. -/
def addDouble (a b : ℚ) : ℚ :=
  roundDouble (a + b)

/-- The `double` literal `0.9`. -/
def double_0_9 : ℚ :=
  roundDouble (9 / 10)

/-- The `double` literal `0.8`. -/
def double_0_8 : ℚ :=
  roundDouble (8 / 10)

/-- A finite `float` (IEEE binary32) value, `mantissa * 2 ^ exponent`: an
element of the `CV_32FC1` response of `cv::matchTemplate`. -/
structure Float32 where
  mantissa : Int
  exponent : Int
  mantissa_lt : mantissa.natAbs < 2 ^ 24 := by decide
  exponent_ge : -149 ≤ exponent := by decide
  exponent_le : exponent ≤ 104 := by decide
deriving DecidableEq

/-- The value of a `float`, which is also its value widened to `double`. -/
def Float32.toRat (f : Float32) : ℚ :=
  f.mantissa * 2 ^ f.exponent

instance : OfNat Float32 0 := ⟨{ mantissa := 0, exponent := 0 }⟩

instance : OfNat Float32 1 := ⟨{ mantissa := 1, exponent := 0 }⟩

/-! ## Reference icons and library calls -/

/-- The reference icons loaded by `ReInitialize`. -/
inductive IconName where
  | cmd | dip | eng | med | sci | sec | antimatter
deriving DecidableEq, Repr

/-- A reference icon raster, or a rescaled copy of one; `type` is its element
type (`cv::imread` gives `CV_8UC3`, 16). -/
structure Icon where
  name : IconName
  rows : Int
  cols : Int
  type : Int := 16
deriving DecidableEq, Repr

/-- The call `cv::resize(src, dst, Size(width, height), 0, 0, cv::INTER_AREA)`:
it asserts that the source is not empty and, the two scale factors being 0,
that the requested size is not empty. -/
def resize (src : Icon) (width height : Int) : Except Fault Icon :=
  if src.rows ≤ 0 ∨ src.cols ≤ 0 then .error .cvException
  else if width ≤ 0 ∨ height ≤ 0 then .error .cvException
  else .ok { src with rows := height, cols := width }

/-- The rescaling both scale searches apply to a reference icon:
`cv::resize(icon, scaled, Size(icon.cols * height / icon.rows, height), ...)`,
with the integer division by `icon.rows`. -/
def rescale (icon : Icon) (height : Int) : Except Fault Icon :=
  if icon.rows = 0 then .error .divideByZero
  else resize icon ((icon.cols * height).tdiv icon.rows) height

/-- The members of `VoyImageScanner` and the library calls that read pixels. -/
structure Scanner where
  skill_cmd : Icon
  skill_dip : Icon
  skill_eng : Icon
  skill_sci : Icon
  antimatter : Icon
  /-- The library calls of `ScaleInvariantTemplateMatch` (`cv::threshold`,
  `cv::matchTemplate`, `cv::threshold`, `cv::minMaxLoc`) on a reference and a
  template of equal type: the maximum `maxval` of the `float` response and the
  location stored in `maxloc`, or the fault of a failed assertion. -/
  matchPeak : Mat → Icon → Except Fault (Float32 × Point)
  /-- The call `OCRNumber(skillValue)`. -/
  OCRNumber : Mat → Int
  /-- The call `cv::mean(center)`, channels 0, 1 and 2, as `double` values. -/
  mean : Mat → ℚ × ℚ × ℚ
  /-- The value `(int)(query.rows - scaledPercentage)` of `AnalyzeVoyImage`, as a
  function of `query.rows` and `query.cols`. -/
  bottomRowStart : Int → Int → Int
  /-- The value `(int)(x - (iconCols - _skill_sci.cols) * widthScale)` with
  `widthScale = (double)scaledWidth / _skill_sci.cols`, as a function of `x`,
  `iconCols` and `scaledWidth`. -/
  valueColEnd : Int → Int → Int → Int
  /-- The value `(int)(x + scaledWidth * 1.4)`, as a function of `x` and
  `scaledWidth`. -/
  valueColStart : Int → Int → Int

/-- The function `ScaleInvariantTemplateMatch(refMat, tplMat, &maxloc)`: the
constructor `Mat res(refMat.rows - tplMat.rows + 1, refMat.cols - tplMat.cols
+ 1, CV_32FC1)` throws on a negative size, `cv::matchTemplate` asserts that
reference and template have the same type, and otherwise the peak of the
response is returned. -/
def ScaleInvariantTemplateMatch (sc : Scanner) (refMat : Mat) (tplMat : Icon) :
    Except Fault (Float32 × Point) :=
  if refMat.rows - tplMat.rows + 1 < 0 ∨ refMat.cols - tplMat.cols + 1 < 0 then
    .error .cvException
  else if refMat.type ≠ tplMat.type then
    .error .cvException
  else
    sc.matchPeak refMat tplMat

/-! ## Star classifier -/

/-- The `if` chain of `HasStar` on the channel means `mean.val[0..2]`; the sum
`mean.val[0] + mean.val[1] + mean.val[2]` is two `double` additions, left to
right. -/
def HasStar.ofMean (m0 m1 m2 : ℚ) : Int :=
  if addDouble (addDouble m0 m1) m2 < 10 then 0
  else if m0 < 5 then 1
  else if addDouble (addDouble m0 m1) m2 > 100 then 2
  else -1

/-- The method `VoyImageScanner::HasStar`. -/
def HasStar (sc : Scanner) (skillImg : Mat) : Except Fault Int :=
  match SubMat skillImg (skillImg.rows.tdiv 2 - 10) (skillImg.rows.tdiv 2 + 10)
      (skillImg.cols.tdiv 2 - 10) (skillImg.cols.tdiv 2 + 10) with
  | .error e => .error e
  | .ok center =>
    let mean := sc.mean center
    .ok (HasStar.ofMean mean.1 mean.2.1 mean.2.2)

/-- The markers of a Skill Entry, as the specification names them. -/
inductive Marker where
  | None | Primary | Secondary | Ambiguous
deriving DecidableEq, Repr

/-- The integer `HasStar` returns for a marker. -/
def Marker.code : Marker → Int
  | .None => 0
  | .Primary => 1
  | .Secondary => 2
  | .Ambiguous => -1

/-- The classification rule as the specification words it, on a channel sum
and the first channel mean: applied in order, sum below 10 is None, else first
channel below 5 is Primary, else sum above 100 is Secondary, otherwise
Ambiguous. -/
def starRule (channelSum channel0 : ℚ) : Marker :=
  if channelSum < 10 then .None
  else if channel0 < 5 then .Primary
  else if channelSum > 100 then .Secondary
  else .Ambiguous

/-! ## Scale searches -/

/-- What one turn of the loop of `MatchTop` computes before its test: the
width of the rescaled icon, `maxval` and `maxloc`. -/
structure TopProbe where
  scaledCols : Int
  maxval : Float32
  maxloc : Point
deriving DecidableEq

/-- The body of the loop of `MatchTop` up to its test, at candidate height
`height`: the icon is rescaled, then matched. -/
def probeTop (sc : Scanner) (top : Mat) (height : Int) : Except Fault TopProbe :=
  match rescale sc.antimatter height with
  | .error e => .error e
  | .ok scaled =>
    match ScaleInvariantTemplateMatch sc top scaled with
    | .error e => .error e
    | .ok found => .ok { scaledCols := scaled.cols, maxval := found.1, maxloc := found.2 }

/-- The variables the `for` loop of `MatchTop` reads and writes. -/
structure TopScan where
  height : Int
  scaledWidth : Int := 0
  maxloc : Point := {}
deriving DecidableEq, Repr

/-- The `for (; height <= maxHeight; height += stepHeight)` loop of `MatchTop`,
from the state `st` on. -/
def scanTop (sc : Scanner) (top : Mat) (maxHeight stepHeight : Int) :
    Nat → TopScan → Except Fault TopScan
  | fuel, st =>
    if st.height ≤ maxHeight then
      match probeTop sc top st.height with
      | .error e => .error e
      | .ok p =>
        if p.maxval.toRat > double_0_8 then
          .ok { st with scaledWidth := p.scaledCols, maxloc := p.maxloc }
        else
          match fuel with
          | 0 => .error .fuelExhausted
          | n + 1 =>
            scanTop sc top maxHeight stepHeight n
              { st with height := st.height + stepHeight, maxloc := p.maxloc }
    else
      .ok st

/-- The method `VoyImageScanner::MatchTop`. -/
def MatchTop (sc : Scanner) (fuel : Nat) (top : Mat) : Except Fault Int :=
  let minHeight := top.rows.tdiv 4
  let maxHeight := top.rows.tdiv 2
  let stepHeight := top.rows.tdiv 32
  match scanTop sc top maxHeight stepHeight fuel { height := minHeight } with
  | .error e => .error e
  | .ok st =>
    if st.scaledWidth = 0 then
      .ok 0
    else
      match SubMat top st.maxloc.y (st.maxloc.y + st.height) (st.maxloc.x + st.scaledWidth)
          (st.maxloc.x + (st.scaledWidth * 27).tdiv 4) with
      | .error e => .error e
      | .ok crop => .ok (sc.OCRNumber crop)

/-- What one turn of the loop of `MatchBottom` computes before its test: the
width of the rescaled SCI icon and `maxval`, `maxloc` of both icons. -/
structure BottomProbe where
  scaledSciCols : Int
  maxvalCmd : Float32
  maxlocCmd : Point
  maxvalSci : Float32
  maxlocSci : Point
deriving DecidableEq

/-- The body of the loop of `MatchBottom` up to its test, at candidate height
`height`: both icons are rescaled, then both are matched. -/
def probeBottom (sc : Scanner) (bottom : Mat) (height : Int) : Except Fault BottomProbe :=
  match rescale sc.skill_cmd height with
  | .error e => .error e
  | .ok scaledCmd =>
    match rescale sc.skill_sci height with
    | .error e => .error e
    | .ok scaledSci =>
      match ScaleInvariantTemplateMatch sc bottom scaledCmd with
      | .error e => .error e
      | .ok cmd =>
        match ScaleInvariantTemplateMatch sc bottom scaledSci with
        | .error e => .error e
        | .ok sci =>
          .ok { scaledSciCols := scaledSci.cols, maxvalCmd := cmd.1, maxlocCmd := cmd.2,
                maxvalSci := sci.1, maxlocSci := sci.2 }

/-- The acceptance test in the loop of `MatchBottom`:
`(maxvalCmd > 0.9) && (maxvalSci > 0.9)`. -/
def accepts (p : BottomProbe) : Prop :=
  p.maxvalCmd.toRat > double_0_9 ∧ p.maxvalSci.toRat > double_0_9

instance (p : BottomProbe) : Decidable (accepts p) :=
  inferInstanceAs (Decidable (_ ∧ _))

/-- The acceptance test as the specification words it: both icons clear
`≥ 0.9` at the same candidate height. -/
def acceptsSpec (p : BottomProbe) : Prop :=
  p.maxvalCmd.toRat ≥ 9 / 10 ∧ p.maxvalSci.toRat ≥ 9 / 10

instance (p : BottomProbe) : Decidable (acceptsSpec p) :=
  inferInstanceAs (Decidable (_ ∧ _))

/-- The variables the `for` loop of `MatchBottom` reads and writes. -/
structure BottomScan where
  height : Int
  scaledWidth : Int := 0
  maxlocCmd : Point := {}
  maxlocSci : Point := {}
deriving DecidableEq, Repr

/-- The `for (; height <= maxHeight; height += stepHeight)` loop of
`MatchBottom`, from the state `st` on. -/
def scanBottom (sc : Scanner) (bottom : Mat) (maxHeight stepHeight : Int) :
    Nat → BottomScan → Except Fault BottomScan
  | fuel, st =>
    if st.height ≤ maxHeight then
      match probeBottom sc bottom st.height with
      | .error e => .error e
      | .ok p =>
        if accepts p then
          .ok { st with
            scaledWidth := p.scaledSciCols, maxlocCmd := p.maxlocCmd, maxlocSci := p.maxlocSci }
        else
          match fuel with
          | 0 => .error .fuelExhausted
          | n + 1 =>
            scanBottom sc bottom maxHeight stepHeight n
              { st with
                height := st.height + stepHeight
                maxlocCmd := p.maxlocCmd
                maxlocSci := p.maxlocSci }
    else
      .ok st

/-- The candidate height `height` is tested and accepted by the loop of
`MatchBottom`: both scores are produced and both exceed `0.9`. -/
def jointAccept (sc : Scanner) (bottom : Mat) (height : Int) : Prop :=
  ∃ p, probeBottom sc bottom height = .ok p ∧ accepts p

/-- The candidate height `height` is tested and rejected by the loop of
`MatchBottom`: both scores are produced and at least one does not exceed
`0.9`. -/
def jointReject (sc : Scanner) (bottom : Mat) (height : Int) : Prop :=
  ∃ p, probeBottom sc bottom height = .ok p ∧ ¬ accepts p

/-- The state in which the loop of `MatchBottom` leaves by `break` at `height`
after the turn computed `p`. -/
def acceptedAt (height : Int) (p : BottomProbe) : BottomScan :=
  { height := height
    scaledWidth := p.scaledSciCols
    maxlocCmd := p.maxlocCmd
    maxlocSci := p.maxlocSci }

/-- The number of `height += stepHeight` steps after which a loop with
`stepHeight ≥ 1` has left the range `minHeight .. maxHeight`. -/
def scanBound (minHeight maxHeight : Int) : Nat :=
  (maxHeight - minHeight + 1).toNat

/-- The `k`-th candidate height of the loop of `MatchTop`:
`minHeight + k * stepHeight`. -/
def topCandidate (top : Mat) (k : Nat) : Int :=
  top.rows.tdiv 4 + k * top.rows.tdiv 32

/-- The loop of `MatchTop` with the bounds `MatchTop` computes from `top`. -/
def runTopScan (sc : Scanner) (fuel : Nat) (top : Mat) : Except Fault TopScan :=
  scanTop sc top (top.rows.tdiv 2) (top.rows.tdiv 32) fuel { height := top.rows.tdiv 4 }

/-- The `k`-th candidate height of the loop of `MatchBottom`:
`minHeight + k * stepHeight`. -/
def bottomCandidate (bottom : Mat) (k : Nat) : Int :=
  (bottom.rows * 3).tdiv 15 + k * bottom.rows.tdiv 30

/-- The loop of `MatchBottom` with the bounds `MatchBottom` computes from
`bottom`. -/
def runBottomScan (sc : Scanner) (fuel : Nat) (bottom : Mat) : Except Fault BottomScan :=
  scanBottom sc bottom ((bottom.rows * 5).tdiv 15) (bottom.rows.tdiv 30) fuel
    { height := (bottom.rows * 3).tdiv 15 }

/-! ## Layout -/

/-- The four arguments of one `SubMat` call. -/
structure CropRect where
  rowStart : Int
  rowEnd : Int
  colStart : Int
  colEnd : Int
deriving DecidableEq, Repr

/-- The call `SubMat(input, ...)` on the four arguments held by a `CropRect`. -/
def SubMatRect (input : Mat) (r : CropRect) : Except Fault Mat :=
  SubMat input r.rowStart r.rowEnd r.colStart r.colEnd

/-- The twelve crops `MatchBottom` requests, in the order of the source. -/
structure Regions where
  cmdValue : CropRect
  cmdStar : CropRect
  dipValue : CropRect
  dipStar : CropRect
  engValue : CropRect
  engStar : CropRect
  secValue : CropRect
  secStar : CropRect
  medValue : CropRect
  medStar : CropRect
  sciValue : CropRect
  sciStar : CropRect
deriving DecidableEq, Repr

/-- The arguments of the twelve `SubMat` calls of `MatchBottom`. -/
def layoutRegions (sc : Scanner) (maxlocCmd maxlocSci : Point) (height scaledWidth : Int) :
    Regions :=
  { cmdValue := ⟨maxlocCmd.y, maxlocCmd.y + height,
      maxlocCmd.x - scaledWidth * 5, maxlocCmd.x - scaledWidth.tdiv 8⟩
    cmdStar := ⟨maxlocCmd.y, maxlocCmd.y + height,
      maxlocCmd.x + (scaledWidth * 9).tdiv 8, maxlocCmd.x + (scaledWidth * 5).tdiv 2⟩
    dipValue := ⟨maxlocCmd.y + height, maxlocSci.y,
      maxlocCmd.x - scaledWidth * 5, sc.valueColEnd maxlocCmd.x sc.skill_dip.cols scaledWidth⟩
    dipStar := ⟨maxlocCmd.y + height, maxlocSci.y,
      maxlocCmd.x + (scaledWidth * 9).tdiv 8, maxlocCmd.x + (scaledWidth * 5).tdiv 2⟩
    engValue := ⟨maxlocSci.y, maxlocSci.y + height,
      maxlocCmd.x - scaledWidth * 5, sc.valueColEnd maxlocCmd.x sc.skill_eng.cols scaledWidth⟩
    engStar := ⟨maxlocSci.y, maxlocSci.y + height,
      maxlocCmd.x + (scaledWidth * 9).tdiv 8, maxlocCmd.x + (scaledWidth * 5).tdiv 2⟩
    secValue := ⟨maxlocCmd.y, maxlocCmd.y + height,
      sc.valueColStart maxlocSci.x scaledWidth, maxlocSci.x + scaledWidth * 6⟩
    secStar := ⟨maxlocCmd.y, maxlocCmd.y + height,
      maxlocSci.x - (scaledWidth * 12).tdiv 8, maxlocSci.x - scaledWidth.tdiv 6⟩
    medValue := ⟨maxlocCmd.y + height, maxlocSci.y,
      sc.valueColStart maxlocSci.x scaledWidth, maxlocSci.x + scaledWidth * 6⟩
    medStar := ⟨maxlocCmd.y + height, maxlocSci.y,
      maxlocSci.x - (scaledWidth * 12).tdiv 8, maxlocSci.x - scaledWidth.tdiv 6⟩
    sciValue := ⟨maxlocSci.y, maxlocSci.y + height,
      sc.valueColStart maxlocSci.x scaledWidth, maxlocSci.x + scaledWidth * 6⟩
    sciStar := ⟨maxlocSci.y, maxlocSci.y + height,
      maxlocSci.x - (scaledWidth * 12).tdiv 8, maxlocSci.x - scaledWidth.tdiv 6⟩ }

/-- The call `OCRNumber(SubMat(bottom, ...))`. -/
def readValue (sc : Scanner) (bottom : Mat) (r : CropRect) : Except Fault Int :=
  match SubMatRect bottom r with
  | .error e => .error e
  | .ok skillValue => .ok (sc.OCRNumber skillValue)

/-- The call `HasStar(SubMat(bottom, ...))`. -/
def readStar (sc : Scanner) (bottom : Mat) (r : CropRect) : Except Fault Int :=
  match SubMatRect bottom r with
  | .error e => .error e
  | .ok skillImg => HasStar sc skillImg

/-- One Skill Entry: the value crop is read, then the star crop. -/
def readSkill (sc : Scanner) (bottom : Mat) (value star : CropRect) : Except Fault ParsedSkill :=
  match readValue sc bottom value with
  | .error e => .error e
  | .ok v =>
    match readStar sc bottom star with
    | .error e => .error e
    | .ok p => .ok { skillValue := v, primary := p }

/-- The part of `MatchBottom` after the `scaledWidth == 0` test: the six Skill
Entries are written in the order cmd, dip, eng, sec, med, sci. -/
def fillSkills (sc : Scanner) (bottom : Mat) (st : BottomScan) (result : VoySearchResults) :
    Except Fault VoySearchResults :=
  let rg := layoutRegions sc st.maxlocCmd st.maxlocSci st.height st.scaledWidth
  match readSkill sc bottom rg.cmdValue rg.cmdStar with
  | .error e => .error e
  | .ok cmd =>
  match readSkill sc bottom rg.dipValue rg.dipStar with
  | .error e => .error e
  | .ok dip =>
  match readSkill sc bottom rg.engValue rg.engStar with
  | .error e => .error e
  | .ok eng =>
  match readSkill sc bottom rg.secValue rg.secStar with
  | .error e => .error e
  | .ok sec =>
  match readSkill sc bottom rg.medValue rg.medStar with
  | .error e => .error e
  | .ok med =>
  match readSkill sc bottom rg.sciValue rg.sciStar with
  | .error e => .error e
  | .ok sci =>
    .ok { result with cmd := cmd, dip := dip, eng := eng, sec := sec, med := med, sci := sci }

/-- The method `VoyImageScanner::MatchBottom`: the returned flag and the state of
`*result` at the return. -/
def MatchBottom (sc : Scanner) (fuel : Nat) (bottom : Mat) (result : VoySearchResults) :
    Except Fault (Bool × VoySearchResults) :=
  let minHeight := (bottom.rows * 3).tdiv 15
  let maxHeight := (bottom.rows * 5).tdiv 15
  let stepHeight := bottom.rows.tdiv 30
  match scanBottom sc bottom maxHeight stepHeight fuel { height := minHeight } with
  | .error e => .error e
  | .ok st =>
    if st.scaledWidth = 0 then
      .ok (false, result)
    else
      match fillSkills sc bottom st result with
      | .error e => .error e
      | .ok filled => .ok (true, filled)

/-! ## Pipeline -/

/-- The statements of `AnalyzeVoyImage` that follow `result.antimatter =
MatchTop(top)`, with `result.antimatter` already assigned. -/
def afterAntimatter (sc : Scanner) (fuel : Nat) (query : Mat) (result : VoySearchResults) :
    Except Fault VoySearchResults :=
  if result.antimatter = 0 then
    .ok { result with error := "Could not read antimatter" }
  else
    let result :=
      if result.antimatter > 8000 then
        { result with antimatter := result.antimatter.tdiv 10 }
      else result
    match SubMat query (sc.bottomRowStart query.rows query.cols) query.rows
        (query.cols.tdiv 6) ((query.cols * 5).tdiv 6) with
    | .error e => .error e
    | .ok bottom =>
      match MatchBottom sc fuel bottom result with
      | .error e => .error e
      | .ok (found, result) =>
        if !found then
          .ok { result with error := "Could not read skill values" }
        else
          .ok { result with valid := true }

/-- The method `VoyImageScanner::AnalyzeVoyImage`, from the decoded `query` and the byte
count the download callback stored in `result.fileSize`. -/
def AnalyzeVoyImage (sc : Scanner) (fuel : Nat) (query : Mat) (fileSize : Nat) :
    Except Fault VoySearchResults :=
  let result : VoySearchResults := { fileSize := fileSize }
  match SubMat query 0 (max (query.rows.tdiv 5) 80) (query.cols.tdiv 3)
      ((query.cols * 2).tdiv 3) with
  | .error e => .error e
  | .ok top =>
    match MatchTop sc fuel top with
    | .error e => .error e
    | .ok antimatter => afterAntimatter sc fuel query { result with antimatter := antimatter }

/-- The state of `result` when `AnalyzeVoyImage` calls `MatchBottom`, for a
non-zero value `v` returned by `MatchTop`. -/
def resultBeforeBottom (fileSize : Nat) (v : Int) : VoySearchResults :=
  { fileSize := fileSize, antimatter := if v > 8000 then v.tdiv 10 else v }


/-- The crop `r` lies within `bottom`. -/
def rectFits (bottom : Mat) (r : CropRect) : Prop :=
  inRange bottom r.rowStart r.rowEnd r.colStart r.colEnd

instance (bottom : Mat) (r : CropRect) : Decidable (rectFits bottom r) :=
  inferInstanceAs (Decidable (inRange _ _ _ _ _))

/-- The two crops of one Skill Entry lie within the band, and the star crop
holds the 20 x 20 centre window of `HasStar`. -/
def skillCropsFit (bottom : Mat) (value star : CropRect) : Prop :=
  rectFits bottom value ∧ rectFits bottom star ∧
  20 ≤ star.rowEnd - star.rowStart ∧ 20 ≤ star.colEnd - star.colStart

instance (bottom : Mat) (value star : CropRect) : Decidable (skillCropsFit bottom value star) :=
  inferInstanceAs (Decidable (_ ∧ _ ∧ _ ∧ _))

/-- All twelve crops of the layout lie within the band and every star crop
holds the centre window. -/
def layoutFits (sc : Scanner) (bottom : Mat) (st : BottomScan) : Prop :=
  skillCropsFit bottom
    (layoutRegions sc st.maxlocCmd st.maxlocSci st.height st.scaledWidth).cmdValue
    (layoutRegions sc st.maxlocCmd st.maxlocSci st.height st.scaledWidth).cmdStar ∧
  skillCropsFit bottom
    (layoutRegions sc st.maxlocCmd st.maxlocSci st.height st.scaledWidth).dipValue
    (layoutRegions sc st.maxlocCmd st.maxlocSci st.height st.scaledWidth).dipStar ∧
  skillCropsFit bottom
    (layoutRegions sc st.maxlocCmd st.maxlocSci st.height st.scaledWidth).engValue
    (layoutRegions sc st.maxlocCmd st.maxlocSci st.height st.scaledWidth).engStar ∧
  skillCropsFit bottom
    (layoutRegions sc st.maxlocCmd st.maxlocSci st.height st.scaledWidth).secValue
    (layoutRegions sc st.maxlocCmd st.maxlocSci st.height st.scaledWidth).secStar ∧
  skillCropsFit bottom
    (layoutRegions sc st.maxlocCmd st.maxlocSci st.height st.scaledWidth).medValue
    (layoutRegions sc st.maxlocCmd st.maxlocSci st.height st.scaledWidth).medStar ∧
  skillCropsFit bottom
    (layoutRegions sc st.maxlocCmd st.maxlocSci st.height st.scaledWidth).sciValue
    (layoutRegions sc st.maxlocCmd st.maxlocSci st.height st.scaledWidth).sciStar

instance (sc : Scanner) (bottom : Mat) (st : BottomScan) : Decidable (layoutFits sc bottom st) :=
  inferInstanceAs (Decidable (_ ∧ _ ∧ _ ∧ _ ∧ _ ∧ _))

/-! ## Concrete inputs

A 1500 x 900 screenshot of type `CV_8UC3` and a family of scanners with square
10 x 10 icons.  The antimatter icon always scores 1, at the origin of the
band; the CMD and SCI icons both score `skillScore` at every candidate height;
every digit crop reads `reading`; every star window is black. -/

/-- The scanner family used at the concrete inputs. -/
def demoScanner (reading : Int) (skillScore : Float32) : Scanner where
  skill_cmd := { name := .cmd, rows := 10, cols := 10 }
  skill_dip := { name := .dip, rows := 10, cols := 10 }
  skill_eng := { name := .eng, rows := 10, cols := 10 }
  skill_sci := { name := .sci, rows := 10, cols := 10 }
  antimatter := { name := .antimatter, rows := 10, cols := 10 }
  matchPeak := fun _ tpl =>
    if tpl.name = .antimatter then .ok (1, ⟨0, 0⟩)
    else if tpl.name = .cmd then .ok (skillScore, ⟨200, 0⟩)
    else .ok (skillScore, ⟨400, 80⟩)
  OCRNumber := fun _ => reading
  mean := fun _ => (0, 0, 0)
  bottomRowStart := fun rows cols => rows - (cols * 2).tdiv 15
  valueColEnd := fun x _ _ => x
  valueColStart := fun x scaledWidth => x + (scaledWidth * 7).tdiv 5

/-- The decoded screenshot. -/
def demoQuery : Mat := { rows := 900, cols := 1500 }

/-- The top band of `demoQuery`. -/
def demoTop : Mat := { rows := 180, cols := 500, y0 := 0, x0 := 500 }

/-- The bottom band of `demoQuery`. -/
def demoBottom : Mat := { rows := 200, cols := 1000, y0 := 700, x0 := 250 }

/-- The six Skill Entries all holding `reading` and no star. -/
def demoFilled (result : VoySearchResults) (reading : Int) : VoySearchResults :=
  { result with
    cmd := ⟨reading, 0⟩
    dip := ⟨reading, 0⟩
    eng := ⟨reading, 0⟩
    sec := ⟨reading, 0⟩
    med := ⟨reading, 0⟩
    sci := ⟨reading, 0⟩ }

/-- A scanner that finds no icon anywhere. -/
def blankScanner : Scanner :=
  { demoScanner 0 0 with matchPeak := fun _ _ => .ok (0, {}) }

/-- A scanner that finds the antimatter icon near the right edge of the top
band, at column 400 of 500. -/
def edgeScanner : Scanner :=
  { demoScanner 9000 1 with matchPeak := fun _ _ => .ok (1, ⟨400, 0⟩) }

/-! ## Floating point -/

/-- A certificate for `roundDouble` at a positive normal value that is not a
tie: `e` is the binade and `m` the nearest mantissa. -/
theorem roundDouble_eq (x : ℚ) (e m : ℤ) (hpos : 0 < x) (he : -1022 ≤ e)
    (hlo : (2 : ℚ) ^ e ≤ x) (hhi : x < (2 : ℚ) ^ (e + 1))
    (h1 : (m : ℚ) - 1 / 2 < x / 2 ^ (e - 52)) (h2 : x / 2 ^ (e - 52) < m + 1 / 2) :
    roundDouble x = m * 2 ^ (e - 52) := by
  have hlog : Int.log 2 |x| = e := by
    rw [abs_of_pos hpos]
    apply le_antisymm
    · have := (Int.lt_zpow_iff_log_lt (b := 2) (by norm_num) hpos).mp
        (by exact_mod_cast hhi : x < ((2 : ℕ) : ℚ) ^ (e + 1))
      omega
    · exact (Int.zpow_le_iff_le_log (b := 2) (by norm_num) hpos).mp
        (by exact_mod_cast hlo : ((2 : ℕ) : ℚ) ^ e ≤ x)
  unfold roundDouble
  rw [if_neg (ne_of_gt hpos)]
  simp only [hlog, max_eq_left he]
  by_cases hge : (m : ℚ) ≤ x / 2 ^ (e - 52)
  · have hf : ⌊x / (2 : ℚ) ^ (e - 52)⌋ = m := by
      rw [Int.floor_eq_iff]
      constructor
      · exact hge
      · linarith
    rw [hf, if_pos (by linarith)]
  · have hf : ⌊x / (2 : ℚ) ^ (e - 52)⌋ = m - 1 := by
      rw [Int.floor_eq_iff]
      push_cast
      constructor
      · linarith
      · linarith [not_le.mp hge]
    rw [hf, if_neg (by push_cast; linarith), if_pos (by push_cast; linarith)]
    congr 1
    push_cast
    ring

theorem roundDouble_zero : roundDouble 0 = 0 := by
  unfold roundDouble
  exact if_pos rfl

theorem double_0_9_eq : double_0_9 = 8106479329266893 / 9007199254740992 := by
  unfold double_0_9
  rw [roundDouble_eq (9 / 10) (-1) 8106479329266893 (by norm_num) (by norm_num) (by norm_num)
    (by norm_num) (by norm_num) (by norm_num)]
  norm_num

theorem addDouble_3_3 : addDouble 3 3 = 6 := by
  unfold addDouble
  rw [roundDouble_eq (3 + 3) 2 6755399441055744 (by norm_num) (by norm_num) (by norm_num)
    (by norm_num) (by norm_num) (by norm_num)]
  norm_num

theorem addDouble_6_3 : addDouble 6 3 = 9 := by
  unfold addDouble
  rw [roundDouble_eq (6 + 3) 3 5066549580791808 (by norm_num) (by norm_num) (by norm_num)
    (by norm_num) (by norm_num) (by norm_num)]
  norm_num

theorem addDouble_4_3 : addDouble 4 3 = 7 := by
  unfold addDouble
  rw [roundDouble_eq (4 + 3) 2 7881299347898368 (by norm_num) (by norm_num) (by norm_num)
    (by norm_num) (by norm_num) (by norm_num)]
  norm_num

theorem addDouble_7_3 : addDouble 7 3 = 10 := by
  unfold addDouble
  rw [roundDouble_eq (7 + 3) 3 5629499534213120 (by norm_num) (by norm_num) (by norm_num)
    (by norm_num) (by norm_num) (by norm_num)]
  norm_num

theorem addDouble_5_3 : addDouble 5 3 = 8 := by
  unfold addDouble
  rw [roundDouble_eq (5 + 3) 3 4503599627370496 (by norm_num) (by norm_num) (by norm_num)
    (by norm_num) (by norm_num) (by norm_num)]
  norm_num

theorem addDouble_8_2 : addDouble 8 2 = 10 := by
  unfold addDouble
  rw [roundDouble_eq (8 + 2) 3 5629499534213120 (by norm_num) (by norm_num) (by norm_num)
    (by norm_num) (by norm_num) (by norm_num)]
  norm_num

theorem addDouble_5_45 : addDouble 5 45 = 50 := by
  unfold addDouble
  rw [roundDouble_eq (5 + 45) 5 7036874417766400 (by norm_num) (by norm_num) (by norm_num)
    (by norm_num) (by norm_num) (by norm_num)]
  norm_num

theorem addDouble_50_50 : addDouble 50 50 = 100 := by
  unfold addDouble
  rw [roundDouble_eq (50 + 50) 6 7036874417766400 (by norm_num) (by norm_num) (by norm_num)
    (by norm_num) (by norm_num) (by norm_num)]
  norm_num

theorem addDouble_5_46 : addDouble 5 46 = 51 := by
  unfold addDouble
  rw [roundDouble_eq (5 + 46) 5 7177611906121728 (by norm_num) (by norm_num) (by norm_num)
    (by norm_num) (by norm_num) (by norm_num)]
  norm_num

theorem addDouble_51_50 : addDouble 51 50 = 101 := by
  unfold addDouble
  rw [roundDouble_eq (51 + 50) 6 7107243161944064 (by norm_num) (by norm_num) (by norm_num)
    (by norm_num) (by norm_num) (by norm_num)]
  norm_num

theorem double_inv_400 : roundDouble (1 / 400) = 5764607523034235 / 2305843009213693952 := by
  rw [roundDouble_eq (1 / 400) (-9) 5764607523034235 (by norm_num) (by norm_num) (by norm_num)
    (by norm_num) (by norm_num) (by norm_num)]
  norm_num

theorem double_mean_550 : roundDouble (550 * (5764607523034235 / 2305843009213693952)) = 11 / 8 := by
  rw [roundDouble_eq (550 * (5764607523034235 / 2305843009213693952)) 0 6192449487634432 (by norm_num) (by norm_num) (by norm_num)
    (by norm_num) (by norm_num) (by norm_num)]
  norm_num

theorem double_quot_550 : roundDouble (550 / 400) = 11 / 8 := by
  rw [roundDouble_eq (550 / 400) 0 6192449487634432 (by norm_num) (by norm_num) (by norm_num)
    (by norm_num) (by norm_num) (by norm_num)]
  norm_num

theorem double_mean_2331 : roundDouble (2331 * (5764607523034235 / 2305843009213693952)) = 6561181707125391 / 1125899906842624 := by
  rw [roundDouble_eq (2331 * (5764607523034235 / 2305843009213693952)) 2 6561181707125391 (by norm_num) (by norm_num) (by norm_num)
    (by norm_num) (by norm_num) (by norm_num)]
  norm_num

theorem double_quot_2331 : roundDouble (2331 / 400) = 6561181707125391 / 1125899906842624 := by
  rw [roundDouble_eq (2331 / 400) 2 6561181707125391 (by norm_num) (by norm_num) (by norm_num)
    (by norm_num) (by norm_num) (by norm_num)]
  norm_num

theorem double_mean_1119 : roundDouble (1119 * (5764607523034235 / 2305843009213693952)) = 6299409978784481 / 2251799813685248 := by
  rw [roundDouble_eq (1119 * (5764607523034235 / 2305843009213693952)) 1 6299409978784481 (by norm_num) (by norm_num) (by norm_num)
    (by norm_num) (by norm_num) (by norm_num)]
  norm_num

theorem double_quot_1119 : roundDouble (1119 / 400) = 6299409978784481 / 2251799813685248 := by
  rw [roundDouble_eq (1119 / 400) 1 6299409978784481 (by norm_num) (by norm_num) (by norm_num)
    (by norm_num) (by norm_num) (by norm_num)]
  norm_num

theorem addDouble_window_1 : addDouble (11 / 8) (6561181707125391 / 1125899906842624) = 8109294079033999 / 1125899906842624 := by
  unfold addDouble
  rw [roundDouble_eq ((11 / 8) + (6561181707125391 / 1125899906842624)) 2 8109294079033999 (by norm_num) (by norm_num) (by norm_num)
    (by norm_num) (by norm_num) (by norm_num)]
  norm_num

theorem addDouble_window_2 : addDouble (8109294079033999 / 1125899906842624) (6299409978784481 / 2251799813685248) = 10 := by
  unfold addDouble
  rw [roundDouble_eq ((8109294079033999 / 1125899906842624) + (6299409978784481 / 2251799813685248)) 3 5629499534213120 (by norm_num) (by norm_num) (by norm_num)
    (by norm_num) (by norm_num) (by norm_num)]
  norm_num

theorem double_mean_101 : roundDouble (101 * (5764607523034235 / 2305843009213693952)) = 4548635623644201 / 18014398509481984 := by
  rw [roundDouble_eq (101 * (5764607523034235 / 2305843009213693952)) (-2) 4548635623644201 (by norm_num) (by norm_num) (by norm_num)
    (by norm_num) (by norm_num) (by norm_num)]
  norm_num

theorem double_quot_101 : roundDouble (101 / 400) = 4548635623644201 / 18014398509481984 := by
  rw [roundDouble_eq (101 / 400) (-2) 4548635623644201 (by norm_num) (by norm_num) (by norm_num)
    (by norm_num) (by norm_num) (by norm_num)]
  norm_num

theorem double_mean_3205 : roundDouble (3205 * (5764607523034235 / 2305843009213693952)) = 2255318250894131 / 281474976710656 := by
  rw [roundDouble_eq (3205 * (5764607523034235 / 2305843009213693952)) 3 4510636501788262 (by norm_num) (by norm_num) (by norm_num)
    (by norm_num) (by norm_num) (by norm_num)]
  norm_num

theorem double_quot_3205 : roundDouble (3205 / 400) = 2255318250894131 / 281474976710656 := by
  rw [roundDouble_eq (3205 / 400) 3 4510636501788262 (by norm_num) (by norm_num) (by norm_num)
    (by norm_num) (by norm_num) (by norm_num)]
  norm_num

theorem double_mean_694 : roundDouble (694 * (5764607523034235 / 2305843009213693952)) = 7813745353487811 / 4503599627370496 := by
  rw [roundDouble_eq (694 * (5764607523034235 / 2305843009213693952)) 0 7813745353487811 (by norm_num) (by norm_num) (by norm_num)
    (by norm_num) (by norm_num) (by norm_num)]
  norm_num

theorem double_quot_694 : roundDouble (694 / 400) = 7813745353487811 / 4503599627370496 := by
  rw [roundDouble_eq (694 / 400) 0 7813745353487811 (by norm_num) (by norm_num) (by norm_num)
    (by norm_num) (by norm_num) (by norm_num)]
  norm_num

theorem addDouble_window_3 : addDouble (4548635623644201 / 18014398509481984) (2255318250894131 / 281474976710656) = 4652781365027143 / 562949953421312 := by
  unfold addDouble
  rw [roundDouble_eq ((4548635623644201 / 18014398509481984) + (2255318250894131 / 281474976710656)) 3 4652781365027143 (by norm_num) (by norm_num) (by norm_num)
    (by norm_num) (by norm_num) (by norm_num)]
  norm_num

theorem addDouble_window_4 : addDouble (4652781365027143 / 562949953421312) (7813745353487811 / 4503599627370496) = 5629499534213119 / 562949953421312 := by
  unfold addDouble
  rw [roundDouble_eq ((4652781365027143 / 562949953421312) + (7813745353487811 / 4503599627370496)) 3 5629499534213119 (by norm_num) (by norm_num) (by norm_num)
    (by norm_num) (by norm_num) (by norm_num)]
  norm_num

theorem Float32.toRat_grid (f : Float32) (h : 1 / 2 ≤ f.toRat) :
    ∃ N : ℤ, f.toRat = N / 2 ^ 24 := by
  unfold Float32.toRat at *
  have hm : (f.mantissa : ℚ) < 2 ^ 24 := by
    have h1 := f.mantissa_lt
    have h2 : f.mantissa < 2 ^ 24 := by omega
    exact_mod_cast h2
  have hpow : (0 : ℚ) < 2 ^ f.exponent := zpow_pos (by norm_num) _
  have he : -24 ≤ f.exponent := by
    by_contra hlt
    have hle : (2 : ℚ) ^ f.exponent ≤ 2 ^ (-25 : ℤ) :=
      zpow_le_zpow_right₀ (by norm_num) (by omega)
    have h25 : (2 : ℚ) ^ (-25 : ℤ) = 1 / 33554432 := by norm_num
    rw [h25] at hle
    have hmpos : (0 : ℚ) < f.mantissa := by
      by_contra hneg
      have : (f.mantissa : ℚ) * 2 ^ f.exponent ≤ 0 :=
        mul_nonpos_of_nonpos_of_nonneg (not_lt.mp hneg) (le_of_lt hpow)
      linarith
    nlinarith
  refine ⟨f.mantissa * 2 ^ (f.exponent + 24).toNat, ?_⟩
  have hsplit : (2 : ℚ) ^ f.exponent = 2 ^ ((f.exponent + 24).toNat : ℤ) * 2 ^ (-24 : ℤ) := by
    rw [← zpow_add₀ (by norm_num)]
    congr 1
    omega
  rw [hsplit, zpow_natCast]
  push_cast
  norm_num
  ring

/-- On `float` scores the test `> 0.9` of the code (against the `double`
literal) and the test `≥ 0.9` of the specification coincide: no `float` lies
between 0.9 and the `double` nearest to it. -/
theorem Float32.gt_double_0_9_iff (f : Float32) : f.toRat > double_0_9 ↔ f.toRat ≥ 9 / 10 := by
  rw [double_0_9_eq]
  constructor
  · intro h
    have : (9 : ℚ) / 10 < 8106479329266893 / 9007199254740992 := by norm_num
    exact le_of_lt (lt_trans this h)
  · intro h
    by_contra hle
    have hle' := not_lt.mp hle
    obtain ⟨N, hN⟩ := f.toRat_grid (by linarith)
    rw [hN] at h hle'
    have h1 : (9 * 16777216 : ℚ) ≤ 10 * N := by
      norm_num at h
      linarith
    have h2 : (N : ℚ) * 9007199254740992 ≤ 8106479329266893 * 16777216 := by
      norm_num at hle'
      linarith
    have h1' : (9 * 16777216 : ℤ) ≤ 10 * N := by exact_mod_cast h1
    have h2' : N * 9007199254740992 ≤ 8106479329266893 * 16777216 := by exact_mod_cast h2
    omega

theorem accepts_iff_acceptsSpec (p : BottomProbe) : accepts p ↔ acceptsSpec p := by
  unfold accepts acceptsSpec
  rw [Float32.gt_double_0_9_iff, Float32.gt_double_0_9_iff]

/-! ## Crops -/

theorem SubMat_eq_ok {input : Mat} {rowStart rowEnd colStart colEnd : Int}
    (h : inRange input rowStart rowEnd colStart colEnd) :
    SubMat input rowStart rowEnd colStart colEnd =
      .ok { rows := rowEnd - rowStart, cols := colEnd - colStart,
            y0 := input.y0 + rowStart, x0 := input.x0 + colStart, type := input.type } := by
  unfold SubMat
  exact if_pos h

theorem SubMat_eq_error {input : Mat} {rowStart rowEnd colStart colEnd : Int}
    (h : ¬ inRange input rowStart rowEnd colStart colEnd) :
    SubMat input rowStart rowEnd colStart colEnd = .error .outOfRange := by
  unfold SubMat
  exact if_neg h

theorem SubMat_ok_inRange {input : Mat} {rowStart rowEnd colStart colEnd : Int} {v : Mat}
    (h : SubMat input rowStart rowEnd colStart colEnd = .ok v) :
    inRange input rowStart rowEnd colStart colEnd := by
  by_contra hn
  rw [SubMat_eq_error hn] at h
  cases h

/-! ## Star classifier -/

theorem ofMean_eq_code (m0 m1 m2 : ℚ) :
    HasStar.ofMean m0 m1 m2 = (starRule (addDouble (addDouble m0 m1) m2) m0).code := by
  unfold HasStar.ofMean starRule
  split_ifs <;> rfl

theorem ofMean_black : HasStar.ofMean 0 0 0 = 0 := by
  have h : addDouble (addDouble 0 0) 0 = 0 := by
    unfold addDouble
    simp [roundDouble_zero]
  unfold HasStar.ofMean
  rw [h]
  norm_num

/-- C1 (amended): `HasStar`, as a function of the three channel means, is the
ordered rule applied to the channel sum as the code computes it, the `double`
sum `(m0 + m1) + m2` with each addition rounded to nearest: sum below 10 gives
None (0), else first channel below 5 gives Primary (1), else sum above 100
gives Secondary (2), else Ambiguous (-1); each outcome is characterised by its
condition on that sum; and at means whose sums are exact the boundaries fall
as stated (sum 9 gives None, sum 10 does not; with `m0 ≥ 5` sum 100 gives
Ambiguous and sum 101 Secondary). -/
theorem HasStar_ordered_rule (sc : Scanner) (skillImg : Mat) (m0 m1 m2 : ℚ) :
    HasStar.ofMean m0 m1 m2 = (starRule (addDouble (addDouble m0 m1) m2) m0).code ∧
    HasStar sc skillImg =
      (SubMat skillImg (skillImg.rows.tdiv 2 - 10) (skillImg.rows.tdiv 2 + 10)
        (skillImg.cols.tdiv 2 - 10) (skillImg.cols.tdiv 2 + 10)).map
        (fun center =>
          (starRule
            (addDouble (addDouble (sc.mean center).1 (sc.mean center).2.1) (sc.mean center).2.2)
            (sc.mean center).1).code) ∧
    (HasStar.ofMean m0 m1 m2 = 0 ↔ addDouble (addDouble m0 m1) m2 < 10) ∧
    (HasStar.ofMean m0 m1 m2 = 1 ↔ 10 ≤ addDouble (addDouble m0 m1) m2 ∧ m0 < 5) ∧
    (HasStar.ofMean m0 m1 m2 = 2 ↔
      10 ≤ addDouble (addDouble m0 m1) m2 ∧ 5 ≤ m0 ∧ 100 < addDouble (addDouble m0 m1) m2) ∧
    (HasStar.ofMean m0 m1 m2 = -1 ↔
      10 ≤ addDouble (addDouble m0 m1) m2 ∧ 5 ≤ m0 ∧ addDouble (addDouble m0 m1) m2 ≤ 100) ∧
    HasStar.ofMean 3 3 3 = 0 ∧ HasStar.ofMean 4 3 3 = 1 ∧ HasStar.ofMean 5 3 2 = -1 ∧
    HasStar.ofMean 5 45 50 = -1 ∧ HasStar.ofMean 5 46 50 = 2 := by
  refine ⟨ofMean_eq_code m0 m1 m2, ?_, ?_, ?_, ?_, ?_, ?_, ?_, ?_, ?_, ?_⟩
  · unfold HasStar
    cases SubMat skillImg (skillImg.rows.tdiv 2 - 10) (skillImg.rows.tdiv 2 + 10)
        (skillImg.cols.tdiv 2 - 10) (skillImg.cols.tdiv 2 + 10) with
    | error e => rfl
    | ok center => simp only [Except.map, ofMean_eq_code]
  · unfold HasStar.ofMean
    split_ifs <;> simp_all
  · unfold HasStar.ofMean
    split_ifs <;> simp_all [not_lt]
  · unfold HasStar.ofMean
    split_ifs <;> simp_all [not_lt]
  · unfold HasStar.ofMean
    split_ifs <;> simp_all [not_lt]
  · unfold HasStar.ofMean
    rw [addDouble_3_3, addDouble_6_3]
    norm_num
  · unfold HasStar.ofMean
    rw [addDouble_4_3, addDouble_7_3]
    norm_num
  · unfold HasStar.ofMean
    rw [addDouble_5_3, addDouble_8_2]
    norm_num
  · unfold HasStar.ofMean
    rw [addDouble_5_45, addDouble_50_50]
    norm_num
  · unfold HasStar.ofMean
    rw [addDouble_5_46, addDouble_51_50]
    norm_num

/-- C1 as stated fails, whether the sum of the means is taken of the `double`
means or of the true means of the window.  A thresholded 20 x 20 window with
channel sums 550, 2331 and 1119 has the `double` means `k * (1. / 400)`
(equally `k / 400.`) 11/8, 6561181707125391 / 2^50 and 6299409978784481 /
2^51; their sum is below 10, by 2^-51, yet the `double` sum of the code is
exactly 10 and `HasStar` returns Primary (1), where the rule on their sum
gives None (0).  A window with channel sums 101, 3205 and 694 has true means
that add up to exactly 10, for which the rule gives Primary (1), yet the
`double` sum of its `double` means is 10 - 2^-49 and `HasStar` returns
None (0). -/
theorem ordered_rule_counterexample :
    (roundDouble (550 * roundDouble (1 / 400)) = 11 / 8 ∧
     roundDouble (2331 * roundDouble (1 / 400)) = 6561181707125391 / 1125899906842624 ∧
     roundDouble (1119 * roundDouble (1 / 400)) = 6299409978784481 / 2251799813685248 ∧
     roundDouble (550 / 400) = 11 / 8 ∧
     roundDouble (2331 / 400) = 6561181707125391 / 1125899906842624 ∧
     roundDouble (1119 / 400) = 6299409978784481 / 2251799813685248 ∧
     (11 / 8 + 6561181707125391 / 1125899906842624 + 6299409978784481 / 2251799813685248 : ℚ)
       < 10 ∧
     addDouble (addDouble (11 / 8) (6561181707125391 / 1125899906842624))
       (6299409978784481 / 2251799813685248) = 10 ∧
     (starRule
       (11 / 8 + 6561181707125391 / 1125899906842624 + 6299409978784481 / 2251799813685248)
       (11 / 8)).code = 0 ∧
     HasStar.ofMean (11 / 8) (6561181707125391 / 1125899906842624)
       (6299409978784481 / 2251799813685248) = 1) ∧
    (roundDouble (101 * roundDouble (1 / 400)) = 4548635623644201 / 18014398509481984 ∧
     roundDouble (3205 * roundDouble (1 / 400)) = 2255318250894131 / 281474976710656 ∧
     roundDouble (694 * roundDouble (1 / 400)) = 7813745353487811 / 4503599627370496 ∧
     roundDouble (101 / 400) = 4548635623644201 / 18014398509481984 ∧
     roundDouble (3205 / 400) = 2255318250894131 / 281474976710656 ∧
     roundDouble (694 / 400) = 7813745353487811 / 4503599627370496 ∧
     (101 / 400 + 3205 / 400 + 694 / 400 : ℚ) = 10 ∧
     addDouble (addDouble (4548635623644201 / 18014398509481984)
       (2255318250894131 / 281474976710656)) (7813745353487811 / 4503599627370496) =
       5629499534213119 / 562949953421312 ∧
     (starRule (101 / 400 + 3205 / 400 + 694 / 400) (101 / 400)).code = 1 ∧
     HasStar.ofMean (4548635623644201 / 18014398509481984)
       (2255318250894131 / 281474976710656) (7813745353487811 / 4503599627370496) = 0) := by
  have hsum : addDouble (addDouble (11 / 8) (6561181707125391 / 1125899906842624))
      (6299409978784481 / 2251799813685248) = 10 := by
    rw [addDouble_window_1, addDouble_window_2]
  have hsum' : addDouble (addDouble (4548635623644201 / 18014398509481984)
      (2255318250894131 / 281474976710656)) (7813745353487811 / 4503599627370496) =
      5629499534213119 / 562949953421312 := by
    rw [addDouble_window_3, addDouble_window_4]
  refine ⟨⟨?_, ?_, ?_, double_quot_550, double_quot_2331, double_quot_1119, by norm_num,
    hsum, ?_, ?_⟩, ⟨?_, ?_, ?_, double_quot_101, double_quot_3205, double_quot_694,
    by norm_num, hsum', ?_, ?_⟩⟩
  · rw [double_inv_400, double_mean_550]
  · rw [double_inv_400, double_mean_2331]
  · rw [double_inv_400, double_mean_1119]
  · unfold starRule
    rw [if_pos (by norm_num)]
    rfl
  · unfold HasStar.ofMean
    rw [hsum]
    norm_num
  · rw [double_inv_400, double_mean_101]
  · rw [double_inv_400, double_mean_3205]
  · rw [double_inv_400, double_mean_694]
  · unfold starRule
    rw [if_neg (by norm_num), if_pos (by norm_num)]
    rfl
  · unfold HasStar.ofMean
    rw [hsum']
    norm_num

/-! ## Frame of `MatchBottom` -/

theorem fillSkills_frame {sc : Scanner} {bottom : Mat} {st : BottomScan}
    {result r : VoySearchResults} (h : fillSkills sc bottom st result = .ok r) :
    r.error = result.error ∧ r.valid = result.valid ∧ r.antimatter = result.antimatter ∧
    r.fileSize = result.fileSize := by
  unfold fillSkills at h
  simp only at h
  repeat (split at h; · cases h)
  cases h
  exact ⟨rfl, rfl, rfl, rfl⟩

theorem MatchBottom_frame {sc : Scanner} {fuel : Nat} {bottom : Mat}
    {result r : VoySearchResults} {found : Bool}
    (h : MatchBottom sc fuel bottom result = .ok (found, r)) :
    r.error = result.error ∧ r.valid = result.valid ∧ r.antimatter = result.antimatter ∧
    r.fileSize = result.fileSize ∧ (found = false → r = result) := by
  unfold MatchBottom at h
  simp only at h
  split at h
  · cases h
  · split at h
    · cases h
      exact ⟨rfl, rfl, rfl, rfl, fun _ => rfl⟩
    · split at h
      · cases h
      · rename_i filled hfill
        cases h
        obtain ⟨h1, h2, h3, h4⟩ := fillSkills_frame hfill
        exact ⟨h1, h2, h3, h4, fun hf => by cases hf⟩

/-! ## The return paths of `AnalyzeVoyImage` -/

theorem afterAntimatter_zero (sc : Scanner) (fuel : Nat) (query : Mat)
    (result : VoySearchResults) (h : result.antimatter = 0) :
    afterAntimatter sc fuel query result =
      .ok { result with error := "Could not read antimatter" } := by
  unfold afterAntimatter
  exact if_pos h

theorem afterAntimatter_nonzero (sc : Scanner) (fuel : Nat) (query : Mat) (fileSize : Nat)
    (v : Int) (h : v ≠ 0) :
    afterAntimatter sc fuel query { fileSize := fileSize, antimatter := v } =
      match SubMat query (sc.bottomRowStart query.rows query.cols) query.rows
          (query.cols.tdiv 6) ((query.cols * 5).tdiv 6) with
      | .error e => .error e
      | .ok bottom =>
        match MatchBottom sc fuel bottom (resultBeforeBottom fileSize v) with
        | .error e => .error e
        | .ok (found, result) =>
          if !found then
            .ok { result with error := "Could not read skill values" }
          else
            .ok { result with valid := true } := by
  unfold afterAntimatter resultBeforeBottom
  simp only [h, if_false]
  by_cases h8 : v > 8000 <;> simp only [h8, if_true, if_false]

theorem AnalyzeVoyImage_of_top {sc : Scanner} {fuel : Nat} {query top : Mat} {fileSize : Nat}
    {v : Int}
    (htop : SubMat query 0 (max (query.rows.tdiv 5) 80) (query.cols.tdiv 3)
      ((query.cols * 2).tdiv 3) = .ok top)
    (hv : MatchTop sc fuel top = .ok v) :
    AnalyzeVoyImage sc fuel query fileSize =
      afterAntimatter sc fuel query { fileSize := fileSize, antimatter := v } := by
  unfold AnalyzeVoyImage
  simp only [htop, hv]

/-- The three ways `AnalyzeVoyImage` returns a result. -/
theorem AnalyzeVoyImage_ok_cases {sc : Scanner} {fuel : Nat} {query : Mat} {fileSize : Nat}
    {r : VoySearchResults} (h : AnalyzeVoyImage sc fuel query fileSize = .ok r) :
    ∃ top v,
      SubMat query 0 (max (query.rows.tdiv 5) 80) (query.cols.tdiv 3)
        ((query.cols * 2).tdiv 3) = .ok top ∧
      MatchTop sc fuel top = .ok v ∧
      ((v = 0 ∧ r = { fileSize := fileSize, error := "Could not read antimatter" }) ∨
       (v ≠ 0 ∧ ∃ bottom found r',
          SubMat query (sc.bottomRowStart query.rows query.cols) query.rows
            (query.cols.tdiv 6) ((query.cols * 5).tdiv 6) = .ok bottom ∧
          MatchBottom sc fuel bottom (resultBeforeBottom fileSize v) = .ok (found, r') ∧
          ((found = false ∧ r = { r' with error := "Could not read skill values" }) ∨
           (found = true ∧ r = { r' with valid := true })))) := by
  unfold AnalyzeVoyImage at h
  simp only at h
  split at h
  · cases h
  · rename_i top htop
    split at h
    · cases h
    · rename_i v hv
      refine ⟨top, v, htop, hv, ?_⟩
      by_cases h0 : v = 0
      · left
        subst h0
        rw [afterAntimatter_zero _ _ _ _ rfl] at h
        cases h
        exact ⟨rfl, rfl⟩
      · right
        rw [afterAntimatter_nonzero _ _ _ _ _ h0] at h
        refine ⟨h0, ?_⟩
        split at h
        · cases h
        · rename_i bottom hbot
          split at h
          · cases h
          · rename_i found r' hmb
            refine ⟨bottom, found, r', hbot, hmb, ?_⟩
            cases found
            · left
              simp only [Bool.not_false, if_true] at h
              cases h
              exact ⟨rfl, rfl⟩
            · right
              simp only [Bool.not_true, Bool.false_eq_true, if_false] at h
              cases h
              exact ⟨rfl, rfl⟩

/-! ## One turn of the scan loops -/

theorem scanBottom_accept (sc : Scanner) (bottom : Mat) (maxHeight stepHeight : Int)
    (fuel : Nat) (st : BottomScan) (p : BottomProbe) (hle : st.height ≤ maxHeight)
    (hp : probeBottom sc bottom st.height = .ok p) (hacc : accepts p) :
    scanBottom sc bottom maxHeight stepHeight fuel st =
      .ok { st with
        scaledWidth := p.scaledSciCols, maxlocCmd := p.maxlocCmd, maxlocSci := p.maxlocSci } := by
  unfold scanBottom
  rw [if_pos hle]
  simp only [hp]
  exact if_pos hacc

theorem scanBottom_reject (sc : Scanner) (bottom : Mat) (maxHeight stepHeight : Int)
    (n : Nat) (st : BottomScan) (p : BottomProbe) (hle : st.height ≤ maxHeight)
    (hp : probeBottom sc bottom st.height = .ok p) (hrej : ¬ accepts p) :
    scanBottom sc bottom maxHeight stepHeight (n + 1) st =
      scanBottom sc bottom maxHeight stepHeight n
        { st with
          height := st.height + stepHeight
          maxlocCmd := p.maxlocCmd
          maxlocSci := p.maxlocSci } := by
  rw [scanBottom, if_pos hle]
  simp only [hp]
  exact if_neg hrej

theorem scanBottom_reject_zero (sc : Scanner) (bottom : Mat) (maxHeight stepHeight : Int)
    (st : BottomScan) (p : BottomProbe) (hle : st.height ≤ maxHeight)
    (hp : probeBottom sc bottom st.height = .ok p) (hrej : ¬ accepts p) :
    scanBottom sc bottom maxHeight stepHeight 0 st = .error .fuelExhausted := by
  rw [scanBottom, if_pos hle]
  simp only [hp]
  exact if_neg hrej

theorem scanBottom_done (sc : Scanner) (bottom : Mat) (maxHeight stepHeight : Int)
    (fuel : Nat) (st : BottomScan) (hgt : ¬ st.height ≤ maxHeight) :
    scanBottom sc bottom maxHeight stepHeight fuel st = .ok st := by
  unfold scanBottom
  exact if_neg hgt

/-- The loop leaves by `break` at the first accepted candidate. -/
theorem scanBottom_found (sc : Scanner) (bottom : Mat) (maxHeight stepHeight : Int) :
    ∀ (k fuel : Nat) (st : BottomScan) (p : BottomProbe), k ≤ fuel →
      (∀ j : Nat, j < k → st.height + j * stepHeight ≤ maxHeight ∧
        jointReject sc bottom (st.height + j * stepHeight)) →
      st.height + k * stepHeight ≤ maxHeight →
      probeBottom sc bottom (st.height + k * stepHeight) = .ok p → accepts p →
      scanBottom sc bottom maxHeight stepHeight fuel st =
        .ok (acceptedAt (st.height + k * stepHeight) p) := by
  intro k
  induction k with
  | zero =>
    intro fuel st p _ _ hle hp hacc
    simp only [Nat.cast_zero, zero_mul, add_zero] at hle hp ⊢
    rw [scanBottom_accept _ _ _ _ _ _ p hle hp hacc]
    rfl
  | succ k ih =>
    intro fuel st p hfuel hbefore hle hp hacc
    obtain ⟨n, rfl⟩ : ∃ n, fuel = n + 1 := ⟨fuel - 1, by omega⟩
    have h0 := hbefore 0 (Nat.succ_pos k)
    simp only [Nat.cast_zero, zero_mul, add_zero] at h0
    obtain ⟨h0le, q, hq, hqrej⟩ := h0
    rw [scanBottom_reject _ _ _ _ _ _ q h0le hq hqrej]
    have key : ∀ j : Nat, st.height + stepHeight + j * stepHeight =
        st.height + ((j + 1 : Nat) : Int) * stepHeight := by
      intro j
      push_cast
      ring
    have := ih n { st with
        height := st.height + stepHeight
        maxlocCmd := q.maxlocCmd
        maxlocSci := q.maxlocSci } p (by omega)
      (by
        intro j hj
        simp only
        rw [key j]
        exact hbefore (j + 1) (by omega))
      (by simp only; rw [key k]; exact hle)
      (by simp only; rw [key k]; exact hp) hacc
    rw [this]
    simp only
    rw [key k]

/-- The loop leaves its range when every candidate is rejected. -/
theorem scanBottom_exhausted (sc : Scanner) (bottom : Mat) (maxHeight stepHeight : Int) :
    ∀ (k fuel : Nat) (st : BottomScan), k ≤ fuel →
      (∀ j : Nat, j < k → st.height + j * stepHeight ≤ maxHeight ∧
        jointReject sc bottom (st.height + j * stepHeight)) →
      ¬ st.height + k * stepHeight ≤ maxHeight →
      ∃ st', scanBottom sc bottom maxHeight stepHeight fuel st = .ok st' ∧
        st'.scaledWidth = st.scaledWidth ∧ st'.height = st.height + k * stepHeight := by
  intro k
  induction k with
  | zero =>
    intro fuel st _ _ hgt
    simp only [Nat.cast_zero, zero_mul, add_zero] at hgt ⊢
    exact ⟨st, scanBottom_done _ _ _ _ _ _ hgt, rfl, rfl⟩
  | succ k ih =>
    intro fuel st hfuel hbefore hgt
    obtain ⟨n, rfl⟩ : ∃ n, fuel = n + 1 := ⟨fuel - 1, by omega⟩
    have h0 := hbefore 0 (Nat.succ_pos k)
    simp only [Nat.cast_zero, zero_mul, add_zero] at h0
    obtain ⟨h0le, q, hq, hqrej⟩ := h0
    rw [scanBottom_reject _ _ _ _ _ _ q h0le hq hqrej]
    have key : ∀ j : Nat, st.height + stepHeight + j * stepHeight =
        st.height + ((j + 1 : Nat) : Int) * stepHeight := by
      intro j
      push_cast
      ring
    obtain ⟨st', h1, h2, h3⟩ := ih n { st with
        height := st.height + stepHeight
        maxlocCmd := q.maxlocCmd
        maxlocSci := q.maxlocSci } (by omega)
      (by
        intro j hj
        simp only
        rw [key j]
        exact hbefore (j + 1) (by omega))
      (by simp only; rw [key k]; exact hgt)
    refine ⟨st', h1, h2, ?_⟩
    rw [h3]
    exact key k

/-- With `stepHeight = 0` a rejected candidate is rejected for ever. -/
theorem scanBottom_stuck (sc : Scanner) (bottom : Mat) (maxHeight : Int) :
    ∀ (fuel : Nat) (st : BottomScan), st.height ≤ maxHeight →
      jointReject sc bottom st.height →
      scanBottom sc bottom maxHeight 0 fuel st = .error .fuelExhausted := by
  intro fuel
  induction fuel with
  | zero =>
    intro st hle hrej
    obtain ⟨q, hq, hqrej⟩ := hrej
    exact scanBottom_reject_zero _ _ _ _ _ q hle hq hqrej
  | succ n ih =>
    intro st hle hrej
    obtain ⟨q, hq, hqrej⟩ := hrej
    rw [scanBottom_reject _ _ _ _ _ _ q hle hq hqrej]
    apply ih
    · simpa using hle
    · simpa using ⟨q, hq, hqrej⟩

/-! ## Candidate heights -/

/-- With a positive step the candidates leave the range after at most
`scanBound` steps, and every earlier candidate lies in the range. -/
theorem exists_exit (minHeight maxHeight stepHeight : Int) (hstep : 1 ≤ stepHeight) :
    ∃ K : Nat, K ≤ scanBound minHeight maxHeight ∧
      (∀ j : Nat, j < K → minHeight + j * stepHeight ≤ maxHeight) ∧
      ¬ minHeight + K * stepHeight ≤ maxHeight := by
  have hex : ∃ K : Nat, ¬ minHeight + K * stepHeight ≤ maxHeight := by
    refine ⟨scanBound minHeight maxHeight, ?_⟩
    unfold scanBound
    have h1 : maxHeight - minHeight + 1 ≤ ((maxHeight - minHeight + 1).toNat : Int) :=
      Int.self_le_toNat _
    have h2 : (0 : Int) ≤ ((maxHeight - minHeight + 1).toNat : Int) := Int.ofNat_nonneg _
    nlinarith
  classical
  refine ⟨Nat.find hex, ?_, ?_, Nat.find_spec hex⟩
  · apply Nat.find_min'
    unfold scanBound
    have h1 : maxHeight - minHeight + 1 ≤ ((maxHeight - minHeight + 1).toNat : Int) :=
      Int.self_le_toNat _
    have h2 : (0 : Int) ≤ ((maxHeight - minHeight + 1).toNat : Int) := Int.ofNat_nonneg _
    nlinarith
  · intro j hj
    have := Nat.find_min hex hj
    exact not_not.mp this

theorem candidate_mono (minHeight stepHeight : Int) (hstep : 0 ≤ stepHeight) {j k : Nat}
    (hjk : j ≤ k) : minHeight + j * stepHeight ≤ minHeight + k * stepHeight := by
  have : (j : Int) ≤ k := by exact_mod_cast hjk
  nlinarith

/-- What the loop of `MatchBottom` computes when `stepHeight ≥ 1` and every
candidate height in the range yields its two scores. -/
theorem scanBottom_spec (sc : Scanner) (bottom : Mat) (minHeight maxHeight stepHeight : Int)
    (fuel : Nat) (hstep : 1 ≤ stepHeight) (hfuel : scanBound minHeight maxHeight ≤ fuel)
    (hscores : ∀ k : Nat, minHeight + k * stepHeight ≤ maxHeight →
      ∃ p, probeBottom sc bottom (minHeight + k * stepHeight) = .ok p) :
    (∃ (k : Nat) (p : BottomProbe), minHeight + k * stepHeight ≤ maxHeight ∧
        probeBottom sc bottom (minHeight + k * stepHeight) = .ok p ∧ accepts p ∧
        (∀ j : Nat, j < k → jointReject sc bottom (minHeight + j * stepHeight)) ∧
        scanBottom sc bottom maxHeight stepHeight fuel { height := minHeight } =
          .ok (acceptedAt (minHeight + k * stepHeight) p)) ∨
    ((∀ k : Nat, minHeight + k * stepHeight ≤ maxHeight →
        jointReject sc bottom (minHeight + k * stepHeight)) ∧
      ∃ st, scanBottom sc bottom maxHeight stepHeight fuel { height := minHeight } = .ok st ∧
        st.scaledWidth = 0 ∧ ¬ st.height ≤ maxHeight) := by
  obtain ⟨K, hK, hin, hout⟩ := exists_exit minHeight maxHeight stepHeight hstep
  have hrej_of : ∀ k : Nat, minHeight + k * stepHeight ≤ maxHeight →
      ¬ jointAccept sc bottom (minHeight + k * stepHeight) →
      jointReject sc bottom (minHeight + k * stepHeight) := by
    intro k hk hna
    obtain ⟨p, hp⟩ := hscores k hk
    exact ⟨p, hp, fun hacc => hna ⟨p, hp, hacc⟩⟩
  classical
  by_cases hacc : ∃ k : Nat, minHeight + k * stepHeight ≤ maxHeight ∧
      jointAccept sc bottom (minHeight + k * stepHeight)
  · left
    obtain ⟨hle, p, hp, hpacc⟩ := Nat.find_spec hacc
    have hmin : ∀ j : Nat, j < Nat.find hacc →
        ¬ (minHeight + j * stepHeight ≤ maxHeight ∧
          jointAccept sc bottom (minHeight + j * stepHeight)) :=
      fun j hj => Nat.find_min hacc hj
    have hkK : Nat.find hacc < K := by
      by_contra hge
      exact hout (le_trans (candidate_mono minHeight stepHeight (by omega) (not_lt.mp hge)) hle)
    have hrange : ∀ j : Nat, j < Nat.find hacc → minHeight + j * stepHeight ≤ maxHeight :=
      fun j hj => hin j (lt_trans hj hkK)
    have hrej : ∀ j : Nat, j < Nat.find hacc →
        jointReject sc bottom (minHeight + j * stepHeight) :=
      fun j hj => hrej_of j (hrange j hj) (fun hj' => hmin j hj ⟨hrange j hj, hj'⟩)
    refine ⟨Nat.find hacc, p, hle, hp, hpacc, hrej, ?_⟩
    exact scanBottom_found sc bottom maxHeight stepHeight (Nat.find hacc) fuel
      { height := minHeight } p (by omega) (fun j hj => ⟨hrange j hj, hrej j hj⟩) hle hp hpacc
  · right
    have hnone : ∀ k : Nat, minHeight + k * stepHeight ≤ maxHeight →
        jointReject sc bottom (minHeight + k * stepHeight) :=
      fun k hk => hrej_of k hk (fun hj => hacc ⟨k, hk, hj⟩)
    refine ⟨hnone, ?_⟩
    obtain ⟨st, h1, h2, h3⟩ := scanBottom_exhausted sc bottom maxHeight stepHeight K fuel
      { height := minHeight } (by omega) (fun j hj => ⟨hin j hj, hnone j (hin j hj)⟩) hout
    refine ⟨st, h1, h2, ?_⟩
    rw [h3]
    exact hout

/-! ## Rescaled icons -/

theorem resize_ok {src scaled : Icon} {width height : Int}
    (h : resize src width height = .ok scaled) :
    0 < width ∧ 0 < height ∧ scaled.cols = width ∧ scaled.rows = height := by
  unfold resize at h
  split_ifs at h with h1 h2
  cases h
  exact ⟨by omega, by omega, rfl, rfl⟩

theorem rescale_ok {icon scaled : Icon} {height : Int} (h : rescale icon height = .ok scaled) :
    0 < scaled.cols ∧ 0 < height ∧ scaled.rows = height ∧ icon.rows ≠ 0 := by
  unfold rescale at h
  split_ifs at h with h0
  obtain ⟨h1, h2, h3, h4⟩ := resize_ok h
  exact ⟨by omega, h2, h4, h0⟩

theorem probeBottom_ok {sc : Scanner} {bottom : Mat} {height : Int} {p : BottomProbe}
    (h : probeBottom sc bottom height = .ok p) :
    0 < p.scaledSciCols ∧ 0 < height ∧ sc.skill_cmd.rows ≠ 0 ∧ sc.skill_sci.rows ≠ 0 := by
  unfold probeBottom at h
  split at h
  · cases h
  · rename_i scaledCmd hcmd
    split at h
    · cases h
    · rename_i scaledSci hsci
      split at h
      · cases h
      · split at h
        · cases h
        · cases h
          exact ⟨(rescale_ok hsci).1, (rescale_ok hsci).2.1, (rescale_ok hcmd).2.2.2,
            (rescale_ok hsci).2.2.2⟩

/-! ## `MatchBottom` and its loop -/

theorem MatchBottom_of_scan {sc : Scanner} {fuel : Nat} {bottom : Mat} {st : BottomScan}
    (result : VoySearchResults) (h : runBottomScan sc fuel bottom = .ok st) :
    MatchBottom sc fuel bottom result =
      if st.scaledWidth = 0 then .ok (false, result)
      else
        match fillSkills sc bottom st result with
        | .error e => .error e
        | .ok filled => .ok (true, filled) := by
  unfold runBottomScan at h
  unfold MatchBottom
  simp only [h]

theorem MatchBottom_of_scan_error {sc : Scanner} {fuel : Nat} {bottom : Mat} {e : Fault}
    (result : VoySearchResults) (h : runBottomScan sc fuel bottom = .error e) :
    MatchBottom sc fuel bottom result = .error e := by
  unfold runBottomScan at h
  unfold MatchBottom
  simp only [h]

theorem MatchBottom_false_iff {sc : Scanner} {fuel : Nat} {bottom : Mat} {st : BottomScan}
    (result : VoySearchResults) (h : runBottomScan sc fuel bottom = .ok st) :
    MatchBottom sc fuel bottom result = .ok (false, result) ↔ st.scaledWidth = 0 := by
  rw [MatchBottom_of_scan result h]
  constructor
  · intro hm
    by_contra hne
    rw [if_neg hne] at hm
    split at hm
    · cases hm
    · cases hm
  · intro hz
    rw [if_pos hz]

theorem tdiv_nonneg_of_nonneg {a b : Int} (ha : 0 ≤ a) (hb : 0 ≤ b) : 0 ≤ a.tdiv b := by
  rw [Int.tdiv_eq_ediv ha hb]
  exact Int.ediv_nonneg ha hb

theorem rows_ge_of_step {rows : Int} (hstep : 1 ≤ rows.tdiv 30) : 30 ≤ rows := by
  by_contra hlt
  by_cases h0 : 0 ≤ rows
  · rw [Int.tdiv_eq_ediv h0 (by decide)] at hstep
    omega
  · have hneg : rows = -(-rows) := by omega
    rw [hneg, Int.neg_tdiv, Int.tdiv_eq_ediv (by omega) (by decide)] at hstep
    omega

theorem bottom_bounds {rows : Int} (h : 0 ≤ rows) :
    (rows * 3).tdiv 15 = rows * 3 / 15 ∧ (rows * 5).tdiv 15 = rows * 5 / 15 ∧
    rows.tdiv 30 = rows / 30 :=
  ⟨Int.tdiv_eq_ediv (by omega) (by decide), Int.tdiv_eq_ediv (by omega) (by decide),
    Int.tdiv_eq_ediv h (by decide)⟩

/-- C7: for a bottom band with `stepHeight = rows / 30 ≥ 1`, given the two peak
scores at each candidate height `minHeight + k * stepHeight ≤ maxHeight` (and
enough fuel for the whole range), the loop of `MatchBottom` returns; the
search succeeds (the loop ends with `scaledWidth ≠ 0`, so that `MatchBottom`
does not return `false`) iff some candidate has both `cmdScore ≥ 0.9` and
`sciScore ≥ 0.9`; the accepted height is the first such candidate; a candidate
at which the two scores do not both reach 0.9 is never accepted; and the
result does not depend on what any later candidate would yield.  The code
tests the `float` scores with `> 0.9` against the `double` literal, which on
`float` values is the same test as `≥ 0.9`. -/
theorem MatchBottom_joint_acceptance (sc : Scanner) (bottom : Mat) (fuel : Nat)
    (result : VoySearchResults)
    (hstep : 1 ≤ bottom.rows.tdiv 30)
    (hfuel : scanBound ((bottom.rows * 3).tdiv 15) ((bottom.rows * 5).tdiv 15) ≤ fuel)
    (hscores : ∀ k : Nat, bottomCandidate bottom k ≤ (bottom.rows * 5).tdiv 15 →
      ∃ p, probeBottom sc bottom (bottomCandidate bottom k) = .ok p) :
    ∃ st, runBottomScan sc fuel bottom = .ok st ∧
      (MatchBottom sc fuel bottom result = .ok (false, result) ↔ st.scaledWidth = 0) ∧
      (st.scaledWidth ≠ 0 ↔
        ∃ (k : Nat) (p : BottomProbe), bottomCandidate bottom k ≤ (bottom.rows * 5).tdiv 15 ∧
          probeBottom sc bottom (bottomCandidate bottom k) = .ok p ∧
          p.maxvalCmd.toRat ≥ 9 / 10 ∧ p.maxvalSci.toRat ≥ 9 / 10) ∧
      (st.scaledWidth ≠ 0 →
        ∃ (k : Nat) (p : BottomProbe), st = acceptedAt (bottomCandidate bottom k) p ∧
          bottomCandidate bottom k ≤ (bottom.rows * 5).tdiv 15 ∧
          probeBottom sc bottom (bottomCandidate bottom k) = .ok p ∧
          p.maxvalCmd.toRat ≥ 9 / 10 ∧ p.maxvalSci.toRat ≥ 9 / 10 ∧
          (∀ (j : Nat) (q : BottomProbe), j < k →
            probeBottom sc bottom (bottomCandidate bottom j) = .ok q →
            ¬ (q.maxvalCmd.toRat ≥ 9 / 10 ∧ q.maxvalSci.toRat ≥ 9 / 10)) ∧
          (∀ sc' : Scanner,
            (∀ j : Nat, j ≤ k →
              probeBottom sc' bottom (bottomCandidate bottom j) =
                probeBottom sc bottom (bottomCandidate bottom j)) →
            runBottomScan sc' fuel bottom = .ok st)) ∧
      (∀ (k : Nat) (p : BottomProbe),
        probeBottom sc bottom (bottomCandidate bottom k) = .ok p →
        ¬ (p.maxvalCmd.toRat ≥ 9 / 10 ∧ p.maxvalSci.toRat ≥ 9 / 10) →
        st.scaledWidth ≠ 0 → st.height ≠ bottomCandidate bottom k) := by
  rcases scanBottom_spec sc bottom ((bottom.rows * 3).tdiv 15) ((bottom.rows * 5).tdiv 15)
      (bottom.rows.tdiv 30) fuel hstep hfuel hscores with
    ⟨k, p, hk, hp, hacc, hfirst, hscan⟩ | ⟨hnone, st, hscan, hw, _⟩
  · have hspec : acceptsSpec p := (accepts_iff_acceptsSpec p).mp hacc
    have hwidth : (acceptedAt (bottomCandidate bottom k) p).scaledWidth ≠ 0 := by
      have := (probeBottom_ok hp).1
      unfold acceptedAt
      simp only
      omega
    have hfirst' : ∀ (j : Nat) (q : BottomProbe), j < k →
        probeBottom sc bottom (bottomCandidate bottom j) = .ok q →
        ¬ (q.maxvalCmd.toRat ≥ 9 / 10 ∧ q.maxvalSci.toRat ≥ 9 / 10) := by
      intro j q hj hq hqs
      obtain ⟨q', hq', hrej⟩ := hfirst j hj
      have hq'' : probeBottom sc bottom (bottomCandidate bottom j) = .ok q' := hq'
      rw [hq] at hq''
      cases hq''
      exact hrej ((accepts_iff_acceptsSpec q).mpr hqs)
    refine ⟨_, hscan, MatchBottom_false_iff result hscan, ?_, ?_, ?_⟩
    · constructor
      · intro _
        exact ⟨k, p, hk, hp, hspec.1, hspec.2⟩
      · intro _
        exact hwidth
    · intro _
      refine ⟨k, p, rfl, hk, hp, hspec.1, hspec.2, hfirst', ?_⟩
      intro sc' hagree
      have hin : ∀ j : Nat, j < k →
          (bottom.rows * 3).tdiv 15 + j * bottom.rows.tdiv 30 ≤ (bottom.rows * 5).tdiv 15 :=
        fun j hj => le_trans (candidate_mono _ _ (by omega) (le_of_lt hj)) hk
      have hkfuel : k ≤ fuel := by
        have hkb : k < scanBound ((bottom.rows * 3).tdiv 15) ((bottom.rows * 5).tdiv 15) := by
          unfold scanBound
          have hk' : (bottom.rows * 3).tdiv 15 + k * bottom.rows.tdiv 30 ≤
              (bottom.rows * 5).tdiv 15 := hk
          have hk0 : (0 : Int) ≤ k := Int.ofNat_nonneg k
          have : (k : Int) ≤ (bottom.rows * 5).tdiv 15 - (bottom.rows * 3).tdiv 15 := by
            nlinarith
          omega
        omega
      exact scanBottom_found sc' bottom ((bottom.rows * 5).tdiv 15) (bottom.rows.tdiv 30) k fuel
        { height := (bottom.rows * 3).tdiv 15 } p hkfuel
        (fun j hj => ⟨hin j hj, by
          obtain ⟨q, hq, hrej⟩ := hfirst j hj
          exact ⟨q, (hagree j (le_of_lt hj)).trans hq, hrej⟩⟩)
        hk ((hagree k le_rfl).trans hp) hacc
    · intro k' p' hp' hnot _ heq
      have hh : bottomCandidate bottom k = bottomCandidate bottom k' := heq
      rw [← hh] at hp'
      have hp'' : probeBottom sc bottom (bottomCandidate bottom k) = .ok p := hp
      rw [hp'] at hp''
      cases hp''
      exact hnot hspec
  · refine ⟨st, hscan, MatchBottom_false_iff result hscan, ?_, ?_, ?_⟩
    · constructor
      · intro hne
        exact absurd hw hne
      · rintro ⟨k, p, hk, hp, h1, h2⟩
        obtain ⟨q, hq, hrej⟩ := hnone k hk
        have hq' : probeBottom sc bottom (bottomCandidate bottom k) = .ok q := hq
        rw [hp] at hq'
        cases hq'
        exact absurd ((accepts_iff_acceptsSpec p).mpr ⟨h1, h2⟩) hrej
    · intro hne
      exact absurd hw hne
    · intro _ _ _ _ hne
      exact absurd hw hne

/-- When every candidate is tested and rejected and `stepHeight ≥ 1`,
`MatchBottom` leaves its range and returns `false` without touching `result`. -/
theorem MatchBottom_not_found (sc : Scanner) (fuel : Nat) (bottom : Mat)
    (result : VoySearchResults) (hstep : 1 ≤ bottom.rows.tdiv 30)
    (hfuel : scanBound ((bottom.rows * 3).tdiv 15) ((bottom.rows * 5).tdiv 15) ≤ fuel)
    (hnone : ∀ k : Nat, bottomCandidate bottom k ≤ (bottom.rows * 5).tdiv 15 →
      jointReject sc bottom (bottomCandidate bottom k)) :
    MatchBottom sc fuel bottom result = .ok (false, result) := by
  rcases scanBottom_spec sc bottom ((bottom.rows * 3).tdiv 15) ((bottom.rows * 5).tdiv 15)
      (bottom.rows.tdiv 30) fuel hstep hfuel
      (fun k hk => let ⟨p, hp, _⟩ := hnone k hk; ⟨p, hp⟩) with
    ⟨k, p, hk, hp, hacc, _, _⟩ | ⟨_, st, hscan, hw, _⟩
  · obtain ⟨q, hq, hrej⟩ := hnone k hk
    have hq' : probeBottom sc bottom (bottomCandidate bottom k) = .ok q := hq
    have hp' : probeBottom sc bottom (bottomCandidate bottom k) = .ok p := hp
    rw [hp'] at hq'
    cases hq'
    exact absurd hacc hrej
  · exact (MatchBottom_false_iff result hscan).mpr hw

theorem scanTop_accept (sc : Scanner) (top : Mat) (maxHeight stepHeight : Int) (fuel : Nat)
    (st : TopScan) (p : TopProbe) (hle : st.height ≤ maxHeight)
    (hp : probeTop sc top st.height = .ok p) (hacc : p.maxval.toRat > double_0_8) :
    scanTop sc top maxHeight stepHeight fuel st =
      .ok { st with scaledWidth := p.scaledCols, maxloc := p.maxloc } := by
  unfold scanTop
  rw [if_pos hle]
  simp only [hp]
  exact if_pos hacc

theorem scanTop_reject (sc : Scanner) (top : Mat) (maxHeight stepHeight : Int) (n : Nat)
    (st : TopScan) (p : TopProbe) (hle : st.height ≤ maxHeight)
    (hp : probeTop sc top st.height = .ok p) (hrej : ¬ p.maxval.toRat > double_0_8) :
    scanTop sc top maxHeight stepHeight (n + 1) st =
      scanTop sc top maxHeight stepHeight n
        { st with height := st.height + stepHeight, maxloc := p.maxloc } := by
  rw [scanTop, if_pos hle]
  simp only [hp]
  exact if_neg hrej

theorem scanTop_done (sc : Scanner) (top : Mat) (maxHeight stepHeight : Int) (fuel : Nat)
    (st : TopScan) (hgt : ¬ st.height ≤ maxHeight) :
    scanTop sc top maxHeight stepHeight fuel st = .ok st := by
  unfold scanTop
  exact if_neg hgt

/-- The loop of `MatchTop` leaves its range when every candidate is tested
and rejected. -/
theorem scanTop_exhausted (sc : Scanner) (top : Mat) (maxHeight stepHeight : Int) :
    ∀ (k fuel : Nat) (st : TopScan), k ≤ fuel →
      (∀ j : Nat, j < k → st.height + j * stepHeight ≤ maxHeight ∧
        ∃ p, probeTop sc top (st.height + j * stepHeight) = .ok p ∧
          ¬ p.maxval.toRat > double_0_8) →
      ¬ st.height + k * stepHeight ≤ maxHeight →
      ∃ st', scanTop sc top maxHeight stepHeight fuel st = .ok st' ∧
        st'.scaledWidth = st.scaledWidth := by
  intro k
  induction k with
  | zero =>
    intro fuel st _ _ hgt
    simp only [Nat.cast_zero, zero_mul, add_zero] at hgt
    exact ⟨st, scanTop_done _ _ _ _ _ _ hgt, rfl⟩
  | succ k ih =>
    intro fuel st hfuel hbefore hgt
    obtain ⟨n, rfl⟩ : ∃ n, fuel = n + 1 := ⟨fuel - 1, by omega⟩
    have h0 := hbefore 0 (Nat.succ_pos k)
    simp only [Nat.cast_zero, zero_mul, add_zero] at h0
    obtain ⟨h0le, q, hq, hqrej⟩ := h0
    rw [scanTop_reject _ _ _ _ _ _ q h0le hq hqrej]
    have key : ∀ j : Nat, st.height + stepHeight + j * stepHeight =
        st.height + ((j + 1 : Nat) : Int) * stepHeight := by
      intro j
      push_cast
      ring
    obtain ⟨st', h1, h2⟩ := ih n { st with
        height := st.height + stepHeight
        maxloc := q.maxloc }
      (by omega)
      (by
        intro j hj
        simp only
        rw [key j]
        exact hbefore (j + 1) (by omega))
      (by simp only; rw [key k]; exact hgt)
    exact ⟨st', h1, h2⟩

theorem MatchTop_of_scan {sc : Scanner} {fuel : Nat} {top : Mat} {st : TopScan}
    (h : runTopScan sc fuel top = .ok st) :
    MatchTop sc fuel top =
      if st.scaledWidth = 0 then .ok 0
      else
        match SubMat top st.maxloc.y (st.maxloc.y + st.height) (st.maxloc.x + st.scaledWidth)
            (st.maxloc.x + (st.scaledWidth * 27).tdiv 4) with
        | .error e => .error e
        | .ok crop => .ok (sc.OCRNumber crop) := by
  unfold runTopScan at h
  unfold MatchTop
  simp only [h]

/-- When every candidate is tested and rejected and `stepHeight ≥ 1`, `MatchTop`
returns 0. -/
theorem MatchTop_not_found (sc : Scanner) (fuel : Nat) (top : Mat)
    (hstep : 1 ≤ top.rows.tdiv 32)
    (hfuel : scanBound (top.rows.tdiv 4) (top.rows.tdiv 2) ≤ fuel)
    (hnone : ∀ k : Nat, topCandidate top k ≤ top.rows.tdiv 2 →
      ∃ p, probeTop sc top (topCandidate top k) = .ok p ∧ ¬ p.maxval.toRat > double_0_8) :
    MatchTop sc fuel top = .ok 0 := by
  obtain ⟨K, hK, hin, hout⟩ := exists_exit (top.rows.tdiv 4) (top.rows.tdiv 2)
    (top.rows.tdiv 32) hstep
  obtain ⟨st, h1, h2⟩ := scanTop_exhausted sc top (top.rows.tdiv 2) (top.rows.tdiv 32) K fuel
    { height := top.rows.tdiv 4 } (by omega) (fun j hj => ⟨hin j hj, hnone j (hin j hj)⟩) hout
  rw [MatchTop_of_scan h1, if_pos h2]

/-! ## The concrete inputs, evaluated -/

theorem double_0_8_eq : double_0_8 = 3602879701896397 / 4503599627370496 := by
  unfold double_0_8
  rw [roundDouble_eq (8 / 10) (-1) 7205759403792794 (by norm_num) (by norm_num) (by norm_num)
    (by norm_num) (by norm_num) (by norm_num)]
  norm_num

theorem one_toRat : (1 : Float32).toRat = 1 := by
  show ((1 : Int) : ℚ) * 2 ^ (0 : Int) = 1
  norm_num

theorem zero_toRat : (0 : Float32).toRat = 0 := by
  show ((0 : Int) : ℚ) * 2 ^ (0 : Int) = 0
  norm_num

theorem rescale_square (name : IconName) (height : Int) (h : 1 ≤ height) :
    rescale { name := name, rows := 10, cols := 10 } height =
      .ok { name := name, rows := height, cols := height } := by
  have hw : ((10 : Int) * height).tdiv 10 = height := by
    rw [Int.tdiv_eq_ediv (by omega) (by decide)]
    omega
  unfold rescale resize
  simp only [hw]
  rw [if_neg (by decide), if_neg (by decide), if_neg (by omega)]

theorem ScaleInvariantTemplateMatch_fits (sc : Scanner) (refMat : Mat) (tplMat : Icon)
    (hrows : tplMat.rows ≤ refMat.rows + 1) (hcols : tplMat.cols ≤ refMat.cols + 1)
    (ht : refMat.type = tplMat.type) :
    ScaleInvariantTemplateMatch sc refMat tplMat = sc.matchPeak refMat tplMat := by
  unfold ScaleInvariantTemplateMatch
  rw [if_neg (by omega), if_neg (by simp [ht])]

theorem demo_probeTop (reading : Int) (skillScore : Float32) (height : Int)
    (h1 : 1 ≤ height) (h2 : height ≤ 181) :
    probeTop (demoScanner reading skillScore) demoTop height =
      .ok { scaledCols := height, maxval := 1, maxloc := ⟨0, 0⟩ } := by
  unfold probeTop
  have hicon : (demoScanner reading skillScore).antimatter =
      { name := .antimatter, rows := 10, cols := 10 } := rfl
  rw [hicon, rescale_square _ _ h1]
  simp only
  rw [ScaleInvariantTemplateMatch_fits _ _ _ (by show height ≤ 180 + 1; omega)
    (by show height ≤ 500 + 1; omega) rfl]
  rfl

theorem demo_probeBottom (reading : Int) (skillScore : Float32) (bottom : Mat) (height : Int)
    (h1 : 1 ≤ height) (h2 : height ≤ bottom.rows + 1) (h3 : height ≤ bottom.cols + 1)
    (ht : bottom.type = 16) :
    probeBottom (demoScanner reading skillScore) bottom height =
      .ok { scaledSciCols := height, maxvalCmd := skillScore, maxlocCmd := ⟨200, 0⟩,
            maxvalSci := skillScore, maxlocSci := ⟨400, 80⟩ } := by
  unfold probeBottom
  have hcmd : (demoScanner reading skillScore).skill_cmd =
      { name := .cmd, rows := 10, cols := 10 } := rfl
  have hsci : (demoScanner reading skillScore).skill_sci =
      { name := .sci, rows := 10, cols := 10 } := rfl
  rw [hcmd, hsci, rescale_square _ _ h1, rescale_square _ _ h1]
  simp only
  rw [ScaleInvariantTemplateMatch_fits _ _ _ h2 h3 ht,
    ScaleInvariantTemplateMatch_fits _ _ _ h2 h3 ht]
  rfl

theorem one_gt_double_0_8 : (1 : Float32).toRat > double_0_8 := by
  rw [one_toRat, double_0_8_eq]
  norm_num

theorem one_gt_double_0_9 : (1 : Float32).toRat > double_0_9 := by
  rw [one_toRat, double_0_9_eq]
  norm_num

theorem zero_not_gt_double_0_9 : ¬ (0 : Float32).toRat > double_0_9 := by
  rw [zero_toRat, double_0_9_eq]
  norm_num

theorem zero_not_gt_double_0_8 : ¬ (0 : Float32).toRat > double_0_8 := by
  rw [zero_toRat, double_0_8_eq]
  norm_num

theorem demo_top_crop :
    SubMat demoQuery 0 (max (demoQuery.rows.tdiv 5) 80) (demoQuery.cols.tdiv 3)
      ((demoQuery.cols * 2).tdiv 3) = .ok demoTop := by
  decide

theorem demo_runTopScan (reading : Int) (skillScore : Float32) (fuel : Nat) :
    runTopScan (demoScanner reading skillScore) fuel demoTop =
      .ok { height := 45, scaledWidth := 45, maxloc := ⟨0, 0⟩ } := by
  unfold runTopScan
  rw [scanTop_accept _ _ _ _ _ _ _ (by decide)
    (demo_probeTop reading skillScore _ (by decide) (by decide)) one_gt_double_0_8]
  rfl

theorem demo_MatchTop (reading : Int) (skillScore : Float32) (fuel : Nat) :
    MatchTop (demoScanner reading skillScore) fuel demoTop = .ok reading := by
  rw [MatchTop_of_scan (demo_runTopScan reading skillScore fuel)]
  rfl

theorem demo_bottom_crop (reading : Int) (skillScore : Float32) :
    SubMat demoQuery
      ((demoScanner reading skillScore).bottomRowStart demoQuery.rows demoQuery.cols)
      demoQuery.rows (demoQuery.cols.tdiv 6) ((demoQuery.cols * 5).tdiv 6) = .ok demoBottom := by
  rfl

theorem demo_runBottomScan (reading : Int) (skillScore : Float32) (fuel : Nat)
    (hs : skillScore.toRat > double_0_9) :
    runBottomScan (demoScanner reading skillScore) fuel demoBottom =
      .ok { height := 40, scaledWidth := 40, maxlocCmd := ⟨200, 0⟩, maxlocSci := ⟨400, 80⟩ } := by
  unfold runBottomScan
  rw [scanBottom_accept _ _ _ _ _ _ _ (by decide)
    (demo_probeBottom reading skillScore demoBottom _ (by decide) (by decide) (by decide) rfl)
    ⟨hs, hs⟩]
  rfl

theorem demo_fillSkills (reading : Int) (skillScore : Float32) (result : VoySearchResults) :
    fillSkills (demoScanner reading skillScore) demoBottom
      { height := 40, scaledWidth := 40, maxlocCmd := ⟨200, 0⟩, maxlocSci := ⟨400, 80⟩ } result =
      .ok (demoFilled result reading) := by
  unfold fillSkills readSkill readValue readStar HasStar
  simp only [demoScanner, ofMean_black]
  rfl

theorem demo_MatchBottom_found (reading : Int) (skillScore : Float32) (fuel : Nat)
    (result : VoySearchResults) (hs : skillScore.toRat > double_0_9) :
    MatchBottom (demoScanner reading skillScore) fuel demoBottom result =
      .ok (true, demoFilled result reading) := by
  rw [MatchBottom_of_scan result (demo_runBottomScan reading skillScore fuel hs),
    demo_fillSkills]
  rfl

theorem demo_jointReject (reading : Int) (skillScore : Float32) (bottom : Mat) (height : Int)
    (h1 : 1 ≤ height) (h2 : height ≤ bottom.rows + 1) (h3 : height ≤ bottom.cols + 1)
    (ht : bottom.type = 16) (hs : ¬ skillScore.toRat > double_0_9) :
    jointReject (demoScanner reading skillScore) bottom height :=
  ⟨_, demo_probeBottom reading skillScore bottom height h1 h2 h3 ht, fun h => hs h.1⟩

theorem demoBottom_candidate (k : Nat) : bottomCandidate demoBottom k = 40 + k * 6 := rfl

theorem demo_MatchBottom_not_found (reading : Int) (skillScore : Float32)
    (result : VoySearchResults) (hs : ¬ skillScore.toRat > double_0_9) :
    MatchBottom (demoScanner reading skillScore) 27 demoBottom result = .ok (false, result) :=
  MatchBottom_not_found _ _ _ _ (by decide) (by decide)
    (fun k hk => by
      have hk' : 40 + (k : Int) * 6 ≤ 66 := hk
      have hk0 : (0 : Int) ≤ k := Int.ofNat_nonneg k
      rw [demoBottom_candidate]
      exact demo_jointReject reading skillScore demoBottom _ (by omega)
        (by show 40 + (k : Int) * 6 ≤ 200 + 1; omega)
        (by show 40 + (k : Int) * 6 ≤ 1000 + 1; omega) rfl hs)

/-! ## Pipeline results -/

theorem corrected_eq (v : Int) :
    (if v > 8000 then v.tdiv 10 else v) = if v > 8000 then v / 10 else v := by
  by_cases h : v > 8000
  · rw [if_pos h, if_pos h, Int.tdiv_eq_ediv (by omega) (by decide)]
  · rw [if_neg h, if_neg h]

theorem AnalyzeVoyImage_of_bottom {sc : Scanner} {fuel : Nat} {query top bottom : Mat}
    {fileSize : Nat} {v : Int} {found : Bool} {r' : VoySearchResults}
    (htop : SubMat query 0 (max (query.rows.tdiv 5) 80) (query.cols.tdiv 3)
      ((query.cols * 2).tdiv 3) = .ok top)
    (hv : MatchTop sc fuel top = .ok v) (hne : v ≠ 0)
    (hbot : SubMat query (sc.bottomRowStart query.rows query.cols) query.rows
      (query.cols.tdiv 6) ((query.cols * 5).tdiv 6) = .ok bottom)
    (hmb : MatchBottom sc fuel bottom (resultBeforeBottom fileSize v) = .ok (found, r')) :
    AnalyzeVoyImage sc fuel query fileSize =
      if !found then .ok { r' with error := "Could not read skill values" }
      else .ok { r' with valid := true } := by
  rw [AnalyzeVoyImage_of_top htop hv, afterAntimatter_nonzero _ _ _ _ _ hne]
  simp only [hbot, hmb]

theorem AnalyzeVoyImage_zero {sc : Scanner} {fuel : Nat} {query top : Mat} {fileSize : Nat}
    (htop : SubMat query 0 (max (query.rows.tdiv 5) 80) (query.cols.tdiv 3)
      ((query.cols * 2).tdiv 3) = .ok top)
    (hv : MatchTop sc fuel top = .ok 0) :
    AnalyzeVoyImage sc fuel query fileSize =
      .ok { fileSize := fileSize, error := "Could not read antimatter" } := by
  rw [AnalyzeVoyImage_of_top htop hv, afterAntimatter_zero _ _ _ _ rfl]

theorem AnalyzeVoyImage_zero_reading {sc : Scanner} {fuel : Nat} {query top crop : Mat}
    (fileSize : Nat) {st : TopScan}
    (htop : SubMat query 0 (max (query.rows.tdiv 5) 80) (query.cols.tdiv 3)
      ((query.cols * 2).tdiv 3) = .ok top)
    (hscan : runTopScan sc fuel top = .ok st) (hfound : st.scaledWidth ≠ 0)
    (hcrop : SubMat top st.maxloc.y (st.maxloc.y + st.height) (st.maxloc.x + st.scaledWidth)
      (st.maxloc.x + (st.scaledWidth * 27).tdiv 4) = .ok crop)
    (hzero : sc.OCRNumber crop = 0) :
    AnalyzeVoyImage sc fuel query fileSize =
      .ok { fileSize := fileSize, error := "Could not read antimatter" } := by
  apply AnalyzeVoyImage_zero htop
  rw [MatchTop_of_scan hscan, if_neg hfound]
  simp only [hcrop, hzero]

theorem demo_Analyze_found (reading : Int) (skillScore : Float32) (fuel : Nat) (fileSize : Nat)
    (hne : reading ≠ 0) (hs : skillScore.toRat > double_0_9) :
    AnalyzeVoyImage (demoScanner reading skillScore) fuel demoQuery fileSize =
      .ok { demoFilled (resultBeforeBottom fileSize reading) reading with valid := true } := by
  rw [AnalyzeVoyImage_of_bottom demo_top_crop (demo_MatchTop _ _ _) hne (demo_bottom_crop _ _)
    (demo_MatchBottom_found _ _ _ _ hs)]
  rfl

/-- C2: for every non-zero value `v` returned by `MatchTop`, the antimatter in
the returned result is `v / 10` when `v > 8000` and `v` otherwise; it is the
value `MatchBottom` is called with, and whenever the bottom stage returns
(with either flag) the analysis returns a result holding it. -/
theorem antimatter_misread_correction (sc : Scanner) (fuel : Nat) (query top : Mat)
    (fileSize : Nat) (v : Int)
    (htop : SubMat query 0 (max (query.rows.tdiv 5) 80) (query.cols.tdiv 3)
      ((query.cols * 2).tdiv 3) = .ok top)
    (hv : MatchTop sc fuel top = .ok v) (hne : v ≠ 0) :
    (∀ r, AnalyzeVoyImage sc fuel query fileSize = .ok r →
      r.antimatter = if v > 8000 then v / 10 else v) ∧
    (resultBeforeBottom fileSize v).antimatter = (if v > 8000 then v / 10 else v) ∧
    (∀ bottom found r',
      SubMat query (sc.bottomRowStart query.rows query.cols) query.rows
        (query.cols.tdiv 6) ((query.cols * 5).tdiv 6) = .ok bottom →
      MatchBottom sc fuel bottom (resultBeforeBottom fileSize v) = .ok (found, r') →
      ∃ r, AnalyzeVoyImage sc fuel query fileSize = .ok r ∧
        r.antimatter = if v > 8000 then v / 10 else v) := by
  have hpre : (resultBeforeBottom fileSize v).antimatter = (if v > 8000 then v / 10 else v) :=
    corrected_eq v
  have hlater : ∀ bottom found r',
      SubMat query (sc.bottomRowStart query.rows query.cols) query.rows
        (query.cols.tdiv 6) ((query.cols * 5).tdiv 6) = .ok bottom →
      MatchBottom sc fuel bottom (resultBeforeBottom fileSize v) = .ok (found, r') →
      ∃ r, AnalyzeVoyImage sc fuel query fileSize = .ok r ∧
        r.antimatter = if v > 8000 then v / 10 else v := by
    intro bottom found r' hbot hmb
    have ha := (MatchBottom_frame hmb).2.2.1
    rw [AnalyzeVoyImage_of_bottom htop hv hne hbot hmb]
    cases found
    · exact ⟨_, rfl, ha.trans hpre⟩
    · exact ⟨_, rfl, ha.trans hpre⟩
  refine ⟨?_, hpre, hlater⟩
  intro r hr
  obtain ⟨top', v', htop', hv', hcase⟩ := AnalyzeVoyImage_ok_cases hr
  rw [htop] at htop'
  cases htop'
  rw [hv] at hv'
  cases hv'
  rcases hcase with ⟨h0, _⟩ | ⟨_, bottom, found, r', hbot, hmb, _⟩
  · exact absurd h0 hne
  · obtain ⟨r2, hr2, ha⟩ := hlater bottom found r' hbot hmb
    rw [hr] at hr2
    cases hr2
    exact ha

/-- At the concrete screenshot a reading of 9000 is stored as 900, a reading of
3000 as 3000 and a reading of 8000 as 8000. -/
theorem antimatter_misread_correction_witness :
    (∃ r, AnalyzeVoyImage (demoScanner 9000 1) 0 demoQuery 7 = .ok r ∧ r.antimatter = 900) ∧
    (∃ r, AnalyzeVoyImage (demoScanner 3000 1) 0 demoQuery 7 = .ok r ∧ r.antimatter = 3000) ∧
    (∃ r, AnalyzeVoyImage (demoScanner 8000 1) 0 demoQuery 7 = .ok r ∧ r.antimatter = 8000) :=
  ⟨(antimatter_misread_correction (demoScanner 9000 1) 0 demoQuery demoTop 7 9000
      demo_top_crop (demo_MatchTop _ _ _) (by decide)).2.2 demoBottom true _
      (demo_bottom_crop _ _) (demo_MatchBottom_found _ _ _ _ one_gt_double_0_9),
   (antimatter_misread_correction (demoScanner 3000 1) 0 demoQuery demoTop 7 3000
      demo_top_crop (demo_MatchTop _ _ _) (by decide)).2.2 demoBottom true _
      (demo_bottom_crop _ _) (demo_MatchBottom_found _ _ _ _ one_gt_double_0_9),
   (antimatter_misread_correction (demoScanner 8000 1) 0 demoQuery demoTop 7 8000
      demo_top_crop (demo_MatchTop _ _ _) (by decide)).2.2 demoBottom true _
      (demo_bottom_crop _ _) (demo_MatchBottom_found _ _ _ _ one_gt_double_0_9)⟩

/-- C3: every result `AnalyzeVoyImage` returns has a non-empty `error` exactly
when `valid = false`, and `valid = true` only if `MatchTop` returned a non-zero
value and `MatchBottom` returned `true`; and for every combination of stage
outcomes (antimatter value zero; non-zero with `MatchBottom` returning either
flag) a result is returned, valid exactly when the flag is `true`. -/
theorem result_invariant (sc : Scanner) (fuel : Nat) (query : Mat) (fileSize : Nat) :
    (∀ r, AnalyzeVoyImage sc fuel query fileSize = .ok r →
      (r.error ≠ "" ↔ r.valid = false) ∧
      (r.valid = true → ∃ top v bottom r',
        SubMat query 0 (max (query.rows.tdiv 5) 80) (query.cols.tdiv 3)
          ((query.cols * 2).tdiv 3) = .ok top ∧
        MatchTop sc fuel top = .ok v ∧ v ≠ 0 ∧
        SubMat query (sc.bottomRowStart query.rows query.cols) query.rows
          (query.cols.tdiv 6) ((query.cols * 5).tdiv 6) = .ok bottom ∧
        MatchBottom sc fuel bottom (resultBeforeBottom fileSize v) = .ok (true, r'))) ∧
    (∀ top,
      SubMat query 0 (max (query.rows.tdiv 5) 80) (query.cols.tdiv 3)
        ((query.cols * 2).tdiv 3) = .ok top →
      MatchTop sc fuel top = .ok 0 →
      ∃ r, AnalyzeVoyImage sc fuel query fileSize = .ok r ∧ r.valid = false ∧ r.error ≠ "") ∧
    (∀ top v bottom found r',
      SubMat query 0 (max (query.rows.tdiv 5) 80) (query.cols.tdiv 3)
        ((query.cols * 2).tdiv 3) = .ok top →
      MatchTop sc fuel top = .ok v → v ≠ 0 →
      SubMat query (sc.bottomRowStart query.rows query.cols) query.rows
        (query.cols.tdiv 6) ((query.cols * 5).tdiv 6) = .ok bottom →
      MatchBottom sc fuel bottom (resultBeforeBottom fileSize v) = .ok (found, r') →
      ∃ r, AnalyzeVoyImage sc fuel query fileSize = .ok r ∧ r.valid = found ∧
        (r.error ≠ "" ↔ found = false)) := by
  have hthird : ∀ top v bottom found r',
      SubMat query 0 (max (query.rows.tdiv 5) 80) (query.cols.tdiv 3)
        ((query.cols * 2).tdiv 3) = .ok top →
      MatchTop sc fuel top = .ok v → v ≠ 0 →
      SubMat query (sc.bottomRowStart query.rows query.cols) query.rows
        (query.cols.tdiv 6) ((query.cols * 5).tdiv 6) = .ok bottom →
      MatchBottom sc fuel bottom (resultBeforeBottom fileSize v) = .ok (found, r') →
      ∃ r, AnalyzeVoyImage sc fuel query fileSize = .ok r ∧ r.valid = found ∧
        (r.error ≠ "" ↔ found = false) := by
    intro top v bottom found r' htop hv hne hbot hmb
    obtain ⟨herr, hvalid, _⟩ := MatchBottom_frame hmb
    have herr' : r'.error = "" := herr
    have hvalid' : r'.valid = false := hvalid
    rw [AnalyzeVoyImage_of_bottom htop hv hne hbot hmb]
    cases found
    · refine ⟨_, rfl, hvalid', ?_⟩
      simp
    · refine ⟨_, rfl, rfl, ?_⟩
      simp [herr']
  refine ⟨?_, ?_, hthird⟩
  · intro r hr
    obtain ⟨top, v, htop, hv, hcase⟩ := AnalyzeVoyImage_ok_cases hr
    rcases hcase with ⟨_, rfl⟩ | ⟨hne, bottom, found, r', hbot, hmb, _⟩
    · simp
    · obtain ⟨r2, hr2, hval, herr⟩ := hthird top v bottom found r' htop hv hne hbot hmb
      rw [hr] at hr2
      cases hr2
      constructor
      · rw [herr, hval]
      · intro ht
        rw [hval] at ht
        subst ht
        exact ⟨top, v, bottom, r', htop, hv, hne, hbot, hmb⟩
  · intro top htop hv
    rw [AnalyzeVoyImage_zero htop hv]
    refine ⟨_, rfl, rfl, ?_⟩
    show "Could not read antimatter" ≠ ""
    decide

/-- At the concrete screenshot the three return paths give: a valid result with
empty error; an invalid result with the skill error; an invalid result with
the antimatter error. -/
theorem result_invariant_witness :
    (∃ r, AnalyzeVoyImage (demoScanner 9000 1) 27 demoQuery 7 = .ok r ∧ r.valid = true ∧
      (r.error ≠ "" ↔ true = false)) ∧
    (∃ r, AnalyzeVoyImage (demoScanner 9000 0) 27 demoQuery 7 = .ok r ∧ r.valid = false ∧
      (r.error ≠ "" ↔ false = false)) ∧
    (∃ r, AnalyzeVoyImage (demoScanner 0 1) 27 demoQuery 7 = .ok r ∧ r.valid = false ∧
      r.error ≠ "") :=
  ⟨(result_invariant (demoScanner 9000 1) 27 demoQuery 7).2.2 demoTop 9000 demoBottom true _
      demo_top_crop (demo_MatchTop _ _ _) (by decide) (demo_bottom_crop _ _)
      (demo_MatchBottom_found _ _ _ _ one_gt_double_0_9),
   (result_invariant (demoScanner 9000 0) 27 demoQuery 7).2.2 demoTop 9000 demoBottom false _
      demo_top_crop (demo_MatchTop _ _ _) (by decide) (demo_bottom_crop _ _)
      (demo_MatchBottom_not_found _ _ _ zero_not_gt_double_0_9),
   (result_invariant (demoScanner 0 1) 27 demoQuery 7).2.1 demoTop
      demo_top_crop (demo_MatchTop _ _ _)⟩

/-- C5: when `MatchTop` returned a non-zero value and `MatchBottom` returns
`false`, `MatchBottom` has left `*result` as it received it, and the returned
result is that state with `error = "Could not read skill values"`: `valid` is
`false`, `antimatter` is the corrected value, and the six Skill Entries are
the ones `MatchBottom` was called with (the zero defaults). -/
theorem bottom_failure_frame (sc : Scanner) (fuel : Nat) (query top bottom : Mat)
    (fileSize : Nat) (v : Int) (r' : VoySearchResults)
    (htop : SubMat query 0 (max (query.rows.tdiv 5) 80) (query.cols.tdiv 3)
      ((query.cols * 2).tdiv 3) = .ok top)
    (hv : MatchTop sc fuel top = .ok v) (hne : v ≠ 0)
    (hbot : SubMat query (sc.bottomRowStart query.rows query.cols) query.rows
      (query.cols.tdiv 6) ((query.cols * 5).tdiv 6) = .ok bottom)
    (hmb : MatchBottom sc fuel bottom (resultBeforeBottom fileSize v) = .ok (false, r')) :
    r' = resultBeforeBottom fileSize v ∧
    (∀ result r'', MatchBottom sc fuel bottom result = .ok (false, r'') → r'' = result) ∧
    ∃ r, AnalyzeVoyImage sc fuel query fileSize = .ok r ∧
      r.error = "Could not read skill values" ∧ r.valid = false ∧
      r.antimatter = (if v > 8000 then v / 10 else v) ∧
      r.cmd = (resultBeforeBottom fileSize v).cmd ∧ r.dip = (resultBeforeBottom fileSize v).dip ∧
      r.eng = (resultBeforeBottom fileSize v).eng ∧ r.med = (resultBeforeBottom fileSize v).med ∧
      r.sci = (resultBeforeBottom fileSize v).sci ∧ r.sec = (resultBeforeBottom fileSize v).sec ∧
      r.cmd = {} ∧ r.dip = {} ∧ r.eng = {} ∧ r.med = {} ∧ r.sci = {} ∧ r.sec = {} := by
  have hframe : ∀ result r'', MatchBottom sc fuel bottom result = .ok (false, r'') →
      r'' = result := fun result r'' h => (MatchBottom_frame h).2.2.2.2 rfl
  have hr' := hframe _ _ hmb
  subst hr'
  refine ⟨rfl, hframe, ?_⟩
  rw [AnalyzeVoyImage_of_bottom htop hv hne hbot hmb]
  exact ⟨_, rfl, rfl, rfl, corrected_eq v, rfl, rfl, rfl, rfl, rfl, rfl, rfl, rfl, rfl, rfl,
    rfl, rfl⟩

/-- At the concrete screenshot with no skill icon found and a reading of 9000:
the result carries the skill error, antimatter 900 and six zero entries. -/
theorem bottom_failure_frame_witness :
    ∃ r, AnalyzeVoyImage (demoScanner 9000 0) 27 demoQuery 7 = .ok r ∧
      r.error = "Could not read skill values" ∧ r.valid = false ∧ r.antimatter = 900 ∧
      r.cmd = {} ∧ r.dip = {} ∧ r.eng = {} ∧ r.med = {} ∧ r.sci = {} ∧ r.sec = {} := by
  obtain ⟨r, h1, h2, h3, h4, _, _, _, _, _, _, h5⟩ :=
    (bottom_failure_frame (demoScanner 9000 0) 27 demoQuery demoTop demoBottom 7 9000 _
      demo_top_crop (demo_MatchTop _ _ _) (by decide) (demo_bottom_crop _ _)
      (demo_MatchBottom_not_found _ _ _ zero_not_gt_double_0_9)).2.2
  exact ⟨r, h1, h2, h3, h4, h5⟩

/-- C6 (amended): when the antimatter icon search succeeds (the loop of
`MatchTop` ends with `scaledWidth ≠ 0`), the value crop lies in the top band
and the Digit Recognizer returns 0 for it, the returned result has
`antimatter = 0`, `valid = false` and `error = "Could not read antimatter"`;
it is returned before the bottom band is cropped or scanned. -/
theorem zero_reading_reported (sc : Scanner) (fuel : Nat) (query top crop : Mat)
    (fileSize : Nat) (st : TopScan)
    (htop : SubMat query 0 (max (query.rows.tdiv 5) 80) (query.cols.tdiv 3)
      ((query.cols * 2).tdiv 3) = .ok top)
    (hscan : runTopScan sc fuel top = .ok st) (hfound : st.scaledWidth ≠ 0)
    (hcrop : SubMat top st.maxloc.y (st.maxloc.y + st.height) (st.maxloc.x + st.scaledWidth)
      (st.maxloc.x + (st.scaledWidth * 27).tdiv 4) = .ok crop)
    (hzero : sc.OCRNumber crop = 0) :
    MatchTop sc fuel top = .ok 0 ∧
    AnalyzeVoyImage sc fuel query fileSize =
      .ok { fileSize := fileSize, error := "Could not read antimatter" } ∧
    ∃ r, AnalyzeVoyImage sc fuel query fileSize = .ok r ∧ r.antimatter = 0 ∧
      r.valid = false ∧ r.error = "Could not read antimatter" := by
  have h := AnalyzeVoyImage_zero_reading fileSize htop hscan hfound hcrop hzero
  refine ⟨?_, h, _, h, rfl, rfl, rfl⟩
  rw [MatchTop_of_scan hscan, if_neg hfound]
  simp only [hcrop, hzero]

/-- At the concrete screenshot with the antimatter icon found and a reading of
0, the result carries the antimatter error. -/
theorem zero_reading_reported_witness :
    AnalyzeVoyImage (demoScanner 0 1) 0 demoQuery 7 =
      .ok { fileSize := 7, error := "Could not read antimatter" } :=
  (zero_reading_reported (demoScanner 0 1) 0 demoQuery demoTop
    { rows := 45, cols := 258, y0 := 0, x0 := 545 } 7
    { height := 45, scaledWidth := 45, maxloc := ⟨0, 0⟩ }
    demo_top_crop (demo_runTopScan _ _ _) (by decide) (by decide) rfl).2.1

/-- C6 as stated fails: the antimatter icon is found, the value crop reads 0,
and the returned result carries a non-empty error instead of an empty one. -/
theorem zero_reading_counterexample :
    (∃ st crop, runTopScan (demoScanner 0 1) 0 demoTop = .ok st ∧ st.scaledWidth ≠ 0 ∧
      SubMat demoTop st.maxloc.y (st.maxloc.y + st.height) (st.maxloc.x + st.scaledWidth)
        (st.maxloc.x + (st.scaledWidth * 27).tdiv 4) = .ok crop ∧
      (demoScanner 0 1).OCRNumber crop = 0) ∧
    ∃ r, AnalyzeVoyImage (demoScanner 0 1) 0 demoQuery 7 = .ok r ∧
      r.error = "Could not read antimatter" ∧ r.error ≠ "" :=
  ⟨⟨{ height := 45, scaledWidth := 45, maxloc := ⟨0, 0⟩ },
     { rows := 45, cols := 258, y0 := 0, x0 := 545 },
     demo_runTopScan _ _ _, by decide, by decide, rfl⟩,
   ⟨_, AnalyzeVoyImage_zero demo_top_crop (demo_MatchTop _ _ _), rfl, by decide⟩⟩

/-- At the concrete bottom band (200 rows: candidates 40, 46, ..., 64) every
candidate yields its scores; with both icons scoring 1 the search succeeds at
the first candidate, height 40, and with both scoring 0 it fails. -/
theorem MatchBottom_joint_acceptance_witness :
    (∃ st, runBottomScan (demoScanner 9000 1) 27 demoBottom = .ok st ∧ st.height = 40 ∧
      st.scaledWidth ≠ 0 ∧
      ¬ MatchBottom (demoScanner 9000 1) 27 demoBottom {} = .ok (false, {})) ∧
    (∃ st, runBottomScan (demoScanner 9000 0) 27 demoBottom = .ok st ∧ st.scaledWidth = 0 ∧
      MatchBottom (demoScanner 9000 0) 27 demoBottom {} = .ok (false, {})) := by
  have hscores : ∀ (s : Float32) (k : Nat),
      bottomCandidate demoBottom k ≤ (demoBottom.rows * 5).tdiv 15 →
      ∃ p, probeBottom (demoScanner 9000 s) demoBottom (bottomCandidate demoBottom k) = .ok p := by
    intro s k hk
    have hk' : 40 + (k : Int) * 6 ≤ 66 := hk
    have hk0 : (0 : Int) ≤ k := Int.ofNat_nonneg k
    rw [demoBottom_candidate]
    exact ⟨_, demo_probeBottom 9000 s demoBottom _ (by omega)
      (by show 40 + (k : Int) * 6 ≤ 200 + 1; omega)
      (by show 40 + (k : Int) * 6 ≤ 1000 + 1; omega) rfl⟩
  constructor
  · obtain ⟨st, h1, h2, _, _⟩ := MatchBottom_joint_acceptance (demoScanner 9000 1) demoBottom 27
      {} (by decide) (by decide) (hscores 1)
    have hst := h1
    rw [demo_runBottomScan 9000 1 27 one_gt_double_0_9] at hst
    cases hst
    exact ⟨_, h1, rfl, by decide, fun hm => absurd (h2.mp hm) (by decide)⟩
  · obtain ⟨st, h1, h2, h3, _⟩ := MatchBottom_joint_acceptance (demoScanner 9000 0) demoBottom 27
      {} (by decide) (by decide) (hscores 0)
    have hw : st.scaledWidth = 0 := by
      by_contra hne
      obtain ⟨k, p, hk, hp, hc, _⟩ := h3.mp hne
      have hk' : 40 + (k : Int) * 6 ≤ 66 := hk
      have hk0 : (0 : Int) ≤ k := Int.ofNat_nonneg k
      rw [demoBottom_candidate] at hp
      rw [demo_probeBottom 9000 0 demoBottom _ (by omega)
        (by show 40 + (k : Int) * 6 ≤ 200 + 1; omega)
        (by show 40 + (k : Int) * 6 ≤ 1000 + 1; omega) rfl] at hp
      cases hp
      have hz : (0 : Float32).toRat ≥ 9 / 10 := hc
      rw [zero_toRat] at hz
      norm_num at hz
    exact ⟨st, h1, hw, h2.mpr hw⟩

/-- C8 fails on the code: for a bottom band with fewer than 30 rows
`stepHeight` is 0, and when the first candidate `minHeight` is tested and
rejected the loop of `MatchBottom` tests the same height again for ever:
whatever the fuel, the loop has not ended and `MatchBottom` has not returned. -/
theorem MatchBottom_small_band_never_returns (sc : Scanner) (fuel : Nat) (bottom : Mat)
    (result : VoySearchResults) (h0 : 0 ≤ bottom.rows) (h30 : bottom.rows < 30)
    (hrej : jointReject sc bottom ((bottom.rows * 3).tdiv 15)) :
    bottom.rows.tdiv 30 = 0 ∧
    (bottom.rows * 3).tdiv 15 ≤ (bottom.rows * 5).tdiv 15 ∧
    runBottomScan sc fuel bottom = .error .fuelExhausted ∧
    MatchBottom sc fuel bottom result = .error .fuelExhausted := by
  obtain ⟨e1, e2, e3⟩ := bottom_bounds h0
  have hstep : bottom.rows.tdiv 30 = 0 := by rw [e3]; omega
  have hle : (bottom.rows * 3).tdiv 15 ≤ (bottom.rows * 5).tdiv 15 := by rw [e1, e2]; omega
  have hscan : runBottomScan sc fuel bottom = .error .fuelExhausted := by
    unfold runBottomScan
    rw [hstep]
    exact scanBottom_stuck sc bottom _ fuel _ hle hrej
  exact ⟨hstep, hle, hscan, MatchBottom_of_scan_error result hscan⟩

/-- A 15-row band (`minHeight = 3`, `maxHeight = 5`, `stepHeight = 0`) in which
neither icon is matched: no amount of fuel lets `MatchBottom` return. -/
theorem MatchBottom_small_band_never_returns_witness :
    ¬ ∃ fuel r, MatchBottom (demoScanner 9000 0) fuel { rows := 15, cols := 100 } {} = .ok r := by
  rintro ⟨fuel, r, h⟩
  rw [(MatchBottom_small_band_never_returns (demoScanner 9000 0) fuel { rows := 15, cols := 100 }
    {} (by decide) (by decide)
    (demo_jointReject 9000 0 { rows := 15, cols := 100 } _ (by decide) (by decide) (by decide)
      rfl zero_not_gt_double_0_9)).2.2.2] at h
  cases h

/-! ## Layout -/

theorem readSkill_ok {sc : Scanner} {bottom : Mat} {value star : CropRect} {s : ParsedSkill}
    (h : readSkill sc bottom value star = .ok s) :
    ∃ valueImg starImg,
      SubMat bottom value.rowStart value.rowEnd value.colStart value.colEnd = .ok valueImg ∧
      s.skillValue = sc.OCRNumber valueImg ∧
      SubMat bottom star.rowStart star.rowEnd star.colStart star.colEnd = .ok starImg ∧
      HasStar sc starImg = .ok s.primary := by
  unfold readSkill readValue readStar SubMatRect at h
  split at h
  · cases h
  · rename_i v hv
    split at hv
    · cases hv
    · rename_i valueImg hvalue
      cases hv
      split at h
      · cases h
      · rename_i p hp
        split at hp
        · cases hp
        · rename_i starImg hstar
          cases h
          exact ⟨valueImg, starImg, hvalue, rfl, hstar, hp⟩

theorem HasStar_error {sc : Scanner} {skillImg : Mat} {e : Fault}
    (h : HasStar sc skillImg = .error e) : e = .outOfRange := by
  unfold HasStar SubMat at h
  split at h
  · split_ifs at *
    rename_i heq
    cases heq
    cases h
    rfl
  · cases h

theorem readSkill_error {sc : Scanner} {bottom : Mat} {value star : CropRect} {e : Fault}
    (h : readSkill sc bottom value star = .error e) : e = .outOfRange := by
  unfold readSkill readValue readStar SubMatRect SubMat at h
  split at h
  · rename_i e' he'
    cases h
    split at he'
    · split_ifs at *
      rename_i heq
      cases heq
      cases he'
      rfl
    · cases he'
  · split at h
    · rename_i e' he'
      cases h
      split at he'
      · split_ifs at *
        rename_i heq
        cases heq
        cases he'
        rfl
      · exact HasStar_error he'
    · cases h

theorem fillSkills_cmd {sc : Scanner} {bottom : Mat} {st : BottomScan}
    {result r : VoySearchResults} (h : fillSkills sc bottom st result = .ok r) :
    readSkill sc bottom
      (layoutRegions sc st.maxlocCmd st.maxlocSci st.height st.scaledWidth).cmdValue
      (layoutRegions sc st.maxlocCmd st.maxlocSci st.height st.scaledWidth).cmdStar = .ok r.cmd := by
  unfold fillSkills at h
  simp only at h
  split at h
  · cases h
  · rename_i cmd hcmd
    repeat (split at h; · cases h)
    cases h
    exact hcmd

/-- C9: for a CMD anchor `(x, y)`, accepted height `h` and `scaledWidth = w ≥ 1`,
the CMD value crop is rows `[y, y + h)`, columns `[x - 5 * w, x - w / 8)` and
the CMD star crop is rows `[y, y + h)`, columns `[x + 9 * w / 8, x + 5 * w / 2)`
(truncating division); both column spans are non-empty; and these are the
crops whose readings a successful `MatchBottom` stores in `cmd`. -/
theorem cmd_layout_offsets (sc : Scanner) (maxlocCmd maxlocSci : Point)
    (height scaledWidth : Int) (hw : 1 ≤ scaledWidth) :
    (layoutRegions sc maxlocCmd maxlocSci height scaledWidth).cmdValue =
      ⟨maxlocCmd.y, maxlocCmd.y + height,
        maxlocCmd.x - 5 * scaledWidth, maxlocCmd.x - scaledWidth / 8⟩ ∧
    (layoutRegions sc maxlocCmd maxlocSci height scaledWidth).cmdStar =
      ⟨maxlocCmd.y, maxlocCmd.y + height,
        maxlocCmd.x + 9 * scaledWidth / 8, maxlocCmd.x + 5 * scaledWidth / 2⟩ ∧
    0 < 5 * scaledWidth - scaledWidth / 8 ∧
    0 < 5 * scaledWidth / 2 - 9 * scaledWidth / 8 ∧
    (layoutRegions sc maxlocCmd maxlocSci height scaledWidth).cmdValue.colStart <
      (layoutRegions sc maxlocCmd maxlocSci height scaledWidth).cmdValue.colEnd ∧
    (layoutRegions sc maxlocCmd maxlocSci height scaledWidth).cmdStar.colStart <
      (layoutRegions sc maxlocCmd maxlocSci height scaledWidth).cmdStar.colEnd ∧
    (∀ bottom result r,
      fillSkills sc bottom
        { height := height, scaledWidth := scaledWidth, maxlocCmd := maxlocCmd,
          maxlocSci := maxlocSci } result = .ok r →
      ∃ valueImg starImg,
        SubMat bottom maxlocCmd.y (maxlocCmd.y + height)
          (maxlocCmd.x - 5 * scaledWidth) (maxlocCmd.x - scaledWidth / 8) = .ok valueImg ∧
        r.cmd.skillValue = sc.OCRNumber valueImg ∧
        SubMat bottom maxlocCmd.y (maxlocCmd.y + height)
          (maxlocCmd.x + 9 * scaledWidth / 8) (maxlocCmd.x + 5 * scaledWidth / 2) = .ok starImg ∧
        HasStar sc starImg = .ok r.cmd.primary) := by
  have e1 : scaledWidth.tdiv 8 = scaledWidth / 8 := Int.tdiv_eq_ediv (by omega) (by decide)
  have e2 : (scaledWidth * 9).tdiv 8 = 9 * scaledWidth / 8 := by
    rw [Int.tdiv_eq_ediv (by omega) (by decide), mul_comm]
  have e3 : (scaledWidth * 5).tdiv 2 = 5 * scaledWidth / 2 := by
    rw [Int.tdiv_eq_ediv (by omega) (by decide), mul_comm]
  have e4 : scaledWidth * 5 = 5 * scaledWidth := mul_comm _ _
  have hv : (layoutRegions sc maxlocCmd maxlocSci height scaledWidth).cmdValue =
      ⟨maxlocCmd.y, maxlocCmd.y + height,
        maxlocCmd.x - 5 * scaledWidth, maxlocCmd.x - scaledWidth / 8⟩ := by
    unfold layoutRegions
    simp only [e1, e4]
  have hs : (layoutRegions sc maxlocCmd maxlocSci height scaledWidth).cmdStar =
      ⟨maxlocCmd.y, maxlocCmd.y + height,
        maxlocCmd.x + 9 * scaledWidth / 8, maxlocCmd.x + 5 * scaledWidth / 2⟩ := by
    unfold layoutRegions
    simp only [e2, e3]
  refine ⟨hv, hs, by omega, by omega, ?_, ?_, ?_⟩
  · rw [hv]
    show maxlocCmd.x - 5 * scaledWidth < maxlocCmd.x - scaledWidth / 8
    omega
  · rw [hs]
    show maxlocCmd.x + 9 * scaledWidth / 8 < maxlocCmd.x + 5 * scaledWidth / 2
    omega
  · intro bottom result r hfill
    have hcmd := fillSkills_cmd hfill
    simp only at hcmd
    rw [hv, hs] at hcmd
    exact readSkill_ok hcmd

/-- At the concrete bottom band: anchor (200, 0), height 40, width 40 give the
value crop columns [0, 195) and the star crop columns [245, 300), rows [0, 40). -/
theorem cmd_layout_offsets_witness :
    (layoutRegions (demoScanner 9000 1) ⟨200, 0⟩ ⟨400, 80⟩ 40 40).cmdValue = ⟨0, 40, 0, 195⟩ ∧
    (layoutRegions (demoScanner 9000 1) ⟨200, 0⟩ ⟨400, 80⟩ 40 40).cmdStar = ⟨0, 40, 245, 300⟩ :=
  ⟨(cmd_layout_offsets (demoScanner 9000 1) ⟨200, 0⟩ ⟨400, 80⟩ 40 40 (by decide)).1,
   (cmd_layout_offsets (demoScanner 9000 1) ⟨200, 0⟩ ⟨400, 80⟩ 40 40 (by decide)).2.1⟩

theorem fillSkills_error {sc : Scanner} {bottom : Mat} {st : BottomScan}
    {result : VoySearchResults} {e : Fault} (h : fillSkills sc bottom st result = .error e) :
    e = .outOfRange := by
  unfold fillSkills at h
  simp only at h
  repeat (split at h; · rename_i he; cases h; exact readSkill_error he)
  cases h

/-- When the SCI anchor row lies above `maxlocCmd.y + height`, the crops are
requested all the same and the DIP value crop (at the latest) is out of range. -/
theorem fillSkills_rows_unchecked (sc : Scanner) (bottom : Mat) (st : BottomScan)
    (result : VoySearchResults) (h : st.maxlocSci.y < st.maxlocCmd.y + st.height) :
    fillSkills sc bottom st result = .error .outOfRange := by
  cases hf : fillSkills sc bottom st result with
  | error e => rw [fillSkills_error hf]
  | ok r =>
    exfalso
    unfold fillSkills at hf
    simp only at hf
    split at hf
    · cases hf
    · split at hf
      · cases hf
      · rename_i dip hdip
        obtain ⟨valueImg, _, hvalue, _⟩ := readSkill_ok hdip
        have hin := SubMat_ok_inRange hvalue
        unfold inRange layoutRegions at hin
        simp only at hin
        omega

theorem AnalyzeVoyImage_top_error {sc : Scanner} {fuel : Nat} {query : Mat} {fileSize : Nat}
    (h : ¬ inRange query 0 (max (query.rows.tdiv 5) 80) (query.cols.tdiv 3)
      ((query.cols * 2).tdiv 3)) :
    AnalyzeVoyImage sc fuel query fileSize = .error .outOfRange := by
  unfold AnalyzeVoyImage
  simp only [SubMat_eq_error h]

theorem AnalyzeVoyImage_MatchTop_error {sc : Scanner} {fuel : Nat} {query top : Mat}
    {fileSize : Nat} {e : Fault}
    (htop : SubMat query 0 (max (query.rows.tdiv 5) 80) (query.cols.tdiv 3)
      ((query.cols * 2).tdiv 3) = .ok top)
    (hv : MatchTop sc fuel top = .error e) :
    AnalyzeVoyImage sc fuel query fileSize = .error e := by
  unfold AnalyzeVoyImage
  simp only [htop, hv]

theorem top_band_inRange (query : Mat) (hr : 0 ≤ query.rows) (hc : 0 ≤ query.cols) :
    inRange query 0 (max (query.rows.tdiv 5) 80) (query.cols.tdiv 3)
      ((query.cols * 2).tdiv 3) ↔ 80 ≤ query.rows := by
  unfold inRange
  rw [Int.tdiv_eq_ediv hr (by decide), Int.tdiv_eq_ediv hc (by decide),
    Int.tdiv_eq_ediv (by omega) (by decide)]
  constructor
  · rintro ⟨_, _, h, _⟩
    exact le_trans (le_max_right _ _) h
  · intro h
    refine ⟨le_refl _, le_trans (by decide) (le_max_right _ _), max_le (by omega) h,
      by omega, by omega, by omega⟩

theorem centre_window_inRange (skillImg : Mat) (hr : 0 ≤ skillImg.rows)
    (hc : 0 ≤ skillImg.cols) :
    inRange skillImg (skillImg.rows.tdiv 2 - 10) (skillImg.rows.tdiv 2 + 10)
      (skillImg.cols.tdiv 2 - 10) (skillImg.cols.tdiv 2 + 10) ↔
      20 ≤ skillImg.rows ∧ 20 ≤ skillImg.cols := by
  unfold inRange
  rw [Int.tdiv_eq_ediv hr (by decide), Int.tdiv_eq_ediv hc (by decide)]
  omega

theorem HasStar_ok_iff (sc : Scanner) (skillImg : Mat) (hr : 0 ≤ skillImg.rows)
    (hc : 0 ≤ skillImg.cols) :
    (∃ p, HasStar sc skillImg = .ok p) ↔ 20 ≤ skillImg.rows ∧ 20 ≤ skillImg.cols := by
  rw [← centre_window_inRange skillImg hr hc]
  constructor
  · rintro ⟨p, hp⟩
    by_contra hn
    unfold HasStar at hp
    rw [SubMat_eq_error hn] at hp
    cases hp
  · intro hin
    unfold HasStar
    rw [SubMat_eq_ok hin]
    exact ⟨_, rfl⟩

theorem readSkill_ok_iff (sc : Scanner) (bottom : Mat) (value star : CropRect) :
    (∃ s, readSkill sc bottom value star = .ok s) ↔ skillCropsFit bottom value star := by
  constructor
  · rintro ⟨s, hs⟩
    obtain ⟨valueImg, starImg, hvalue, _, hstar, hhas⟩ := readSkill_ok hs
    have hv := SubMat_ok_inRange hvalue
    have hst := SubMat_ok_inRange hstar
    rw [SubMat_eq_ok hst] at hstar
    cases hstar
    have hwin := (HasStar_ok_iff sc _ (by unfold inRange at hst; simp only; omega)
      (by unfold inRange at hst; simp only; omega)).mp ⟨_, hhas⟩
    exact ⟨hv, hst, hwin.1, hwin.2⟩
  · rintro ⟨hv, hst, hrows, hcols⟩
    unfold rectFits at hv hst
    have hwin : ∃ p, HasStar sc
        { rows := star.rowEnd - star.rowStart, cols := star.colEnd - star.colStart,
          y0 := bottom.y0 + star.rowStart, x0 := bottom.x0 + star.colStart,
          type := bottom.type } = .ok p :=
      (HasStar_ok_iff sc _ (by simp only; omega) (by simp only; omega)).mpr ⟨hrows, hcols⟩
    obtain ⟨p, hp⟩ := hwin
    unfold readSkill readValue readStar SubMatRect
    rw [SubMat_eq_ok hv, SubMat_eq_ok hst]
    simp only [hp]
    exact ⟨_, rfl⟩

theorem fillSkills_ok_iff (sc : Scanner) (bottom : Mat) (st : BottomScan)
    (result : VoySearchResults) :
    (∃ r, fillSkills sc bottom st result = .ok r) ↔ layoutFits sc bottom st := by
  unfold layoutFits
  simp only [← readSkill_ok_iff sc]
  unfold fillSkills
  simp only
  constructor
  · rintro ⟨r, hr⟩
    split at hr
    · cases hr
    · rename_i h1
      split at hr
      · cases hr
      · rename_i h2
        split at hr
        · cases hr
        · rename_i h3
          split at hr
          · cases hr
          · rename_i h4
            split at hr
            · cases hr
            · rename_i h5
              split at hr
              · cases hr
              · rename_i h6
                exact ⟨⟨_, h1⟩, ⟨_, h2⟩, ⟨_, h3⟩, ⟨_, h4⟩, ⟨_, h5⟩, ⟨_, h6⟩⟩
  · rintro ⟨⟨_, h1⟩, ⟨_, h2⟩, ⟨_, h3⟩, ⟨_, h4⟩, ⟨_, h5⟩, ⟨_, h6⟩⟩
    simp only [h1, h2, h3, h4, h5, h6]
    exact ⟨_, rfl⟩

theorem AnalyzeVoyImage_of_fill {sc : Scanner} {fuel : Nat} {query top bottom : Mat}
    (fileSize : Nat) {v : Int} {st : BottomScan}
    (htop : SubMat query 0 (max (query.rows.tdiv 5) 80) (query.cols.tdiv 3)
      ((query.cols * 2).tdiv 3) = .ok top)
    (hv : MatchTop sc fuel top = .ok v) (hne : v ≠ 0)
    (hbot : SubMat query (sc.bottomRowStart query.rows query.cols) query.rows
      (query.cols.tdiv 6) ((query.cols * 5).tdiv 6) = .ok bottom)
    (hscan : runBottomScan sc fuel bottom = .ok st) (hw : st.scaledWidth ≠ 0) :
    AnalyzeVoyImage sc fuel query fileSize =
      match fillSkills sc bottom st (resultBeforeBottom fileSize v) with
      | .error e => .error e
      | .ok filled => .ok { filled with valid := true } := by
  rw [AnalyzeVoyImage_of_top htop hv, afterAntimatter_nonzero _ _ _ _ _ hne]
  simp only [hbot, MatchBottom_of_scan _ hscan, if_neg hw]
  cases fillSkills sc bottom st (resultBeforeBottom fileSize v) with
  | error e => rfl
  | ok filled => rfl

theorem edge_MatchTop (fuel : Nat) : MatchTop edgeScanner fuel demoTop = .error .outOfRange := by
  have hprobe : probeTop edgeScanner demoTop 45 =
      .ok { scaledCols := 45, maxval := 1, maxloc := ⟨400, 0⟩ } := by
    unfold probeTop
    have hicon : edgeScanner.antimatter = { name := .antimatter, rows := 10, cols := 10 } := rfl
    rw [hicon, rescale_square _ _ (by decide)]
    simp only
    rw [ScaleInvariantTemplateMatch_fits _ _ _ (by decide) (by decide) rfl]
    rfl
  have hscan : runTopScan edgeScanner fuel demoTop =
      .ok { height := 45, scaledWidth := 45, maxloc := ⟨400, 0⟩ } := by
    unfold runTopScan
    rw [scanTop_accept _ _ _ _ _ _ _ (by decide) hprobe one_gt_double_0_8]
    rfl
  rw [MatchTop_of_scan hscan]
  rfl

theorem blank_probeTop (height : Int) (h1 : 1 ≤ height) (h2 : height ≤ 181) :
    probeTop blankScanner demoTop height =
      .ok { scaledCols := height, maxval := 0, maxloc := {} } := by
  unfold probeTop
  have hicon : blankScanner.antimatter = { name := .antimatter, rows := 10, cols := 10 } := rfl
  rw [hicon, rescale_square _ _ h1]
  simp only
  rw [ScaleInvariantTemplateMatch_fits _ _ _ (by show height ≤ 180 + 1; omega)
    (by show height ≤ 500 + 1; omega) rfl]
  rfl

end DataCore
